import Mathlib

/-!
Retransmission probe of the WHIP NACK test server.

Shallow embedding of the packet loop that `doSignaling` installs with
`peerConnection.OnTrack` in `main.go` (lines 44-99), and theorems about it.

* Every `uint16` of the source (`totalSeen`, `largestGapRTXed`, sequence
  numbers, `nackDistance`, `currentDistance`) is a `Nat` below `65536`; each
  arithmetic operation of the source is followed by `% 65536` here.
* `rtp.Packet` is reduced to the two fields the loop reads: `SequenceNumber`
  and `Payload` (a list of bytes).
* One iteration of the `for` loop, from `totalSeen++` up to the call of
  `peerConnection.WriteRTCP`, is the function `observe`.  The call itself and
  the end of the stream belong to `packetLoop`.
-/

namespace WhipNack

/-- The constant `windowSize` of `main.go` line 19. -/
def windowSize : Nat := 50

/-- The fields of `rtp.Packet` that the loop reads. -/
structure Packet where
  SequenceNumber : Nat
  Payload : List Nat
deriving DecidableEq, Repr

/-- A packet that `track.ReadRTP` can return: a 16-bit sequence number and
a payload made of bytes. -/
def Packet.wf (pkt : Packet) : Prop :=
  pkt.SequenceNumber < 65536 ∧ ∀ b ∈ pkt.Payload, b < 256

instance (pkt : Packet) : Decidable pkt.wf := by
  unfold Packet.wf; exact inferInstance

/-- The message `rtcp.TransportLayerNack` built at lines 90-94.  `Nacks` holds
the list of sequence numbers that the source hands to
`rtcp.NackPairsFromSequenceNumbers`. -/
structure TransportLayerNack where
  SenderSSRC : Nat
  MediaSSRC : Nat
  Nacks : List Nat
deriving DecidableEq, Repr

/-- The four variables declared at lines 44-47. -/
structure ProbeState where
  totalSeen : Nat
  largestGapRTXed : Nat
  pktNacked : Option Packet
  wasNacked : List Nat
deriving DecidableEq, Repr

/-- The values of lines 44-47 when the loop is entered. -/
def initialState : ProbeState :=
  { totalSeen := 0, largestGapRTXed := 0, pktNacked := none, wasNacked := [] }

/-- The two `fmt.Printf` lines of the loop (lines 63 and 87). -/
inductive LogLine where
  | correctlyRTXed (sequenceNumber : Nat)
  | sendingNack (sequenceNumber : Nat) (distance : Nat)
deriving DecidableEq, Repr

/-- How one iteration of the loop ends.
* `Continue`: one of the `continue` statements at lines 71 and 85;
* `VerifiedRetransmission`: the `continue` at line 66;
* `IntegrityFailure`: the `panic` at line 60;
* `SendFeedback nack`: the iteration reaches line 96 and calls `WriteRTCP`
  with `nack`;
* `NilDereference`: line 81 or 93 reads `pktNacked.SequenceNumber` while
  `pktNacked` is `nil`. -/
inductive Outcome where
  | Continue
  | VerifiedRetransmission
  | IntegrityFailure
  | SendFeedback (nack : TransportLayerNack)
  | NilDereference
deriving DecidableEq, Repr

/-- What one iteration leaves behind: how it ended, the variables, and the
lines it printed. -/
structure StepResult where
  outcome : Outcome
  state : ProbeState
  log : List LogLine
deriving DecidableEq, Repr

/-- Line 57: `totalSeen++`, in `uint16`. -/
def countPacket (st : ProbeState) : ProbeState :=
  { st with totalSeen := (st.totalSeen + 1) % 65536 }

/-- Line 80: `nackDistance := (windowSize + largestGapRTXed)`, in `uint16`. -/
def nackDistance (st : ProbeState) : Nat :=
  (windowSize + st.largestGapRTXed) % 65536

/-- Line 81: `pkt.SequenceNumber - pktNacked.SequenceNumber`, in `uint16`. -/
def currentDistance (pkt nacked : Packet) : Nat :=
  (pkt.SequenceNumber + 65536 - nacked.SequenceNumber) % 65536

/-- Line 58: `pktNacked != nil && pktNacked.Header.SequenceNumber ==
pkt.Header.SequenceNumber`. -/
def matchesPending (st : ProbeState) (pkt : Packet) : Bool :=
  match st.pktNacked with
  | none => false
  | some orig => orig.SequenceNumber == pkt.SequenceNumber

/-- Lines 75-78: `if pktNacked == nil { pktNacked = pkt; wasNacked =
append(wasNacked, pkt.SequenceNumber) }`. -/
def startProbe (st : ProbeState) (pkt : Packet) : ProbeState :=
  match st.pktNacked with
  | none => { st with pktNacked := some pkt,
                      wasNacked := st.wasNacked ++ [pkt.SequenceNumber] }
  | some _ => st

/-- Lines 80-96, entered with the variables `st` (after lines 75-78):
the distance test and the construction of the NACK. -/
def distanceStep (ssrc : Nat) (st : ProbeState) (pkt : Packet) : StepResult :=
  match st.pktNacked with
  | none => { outcome := Outcome.NilDereference, state := st, log := [] }
  | some nacked =>
    let nack : TransportLayerNack :=
      { SenderSSRC := ssrc, MediaSSRC := ssrc, Nacks := [nacked.SequenceNumber] }
    if currentDistance pkt nacked < nackDistance st then
      { outcome := Outcome.Continue, state := st, log := [] }
    else if currentDistance pkt nacked = nackDistance st then
      { outcome := Outcome.SendFeedback nack, state := st,
        log := [LogLine.sendingNack nacked.SequenceNumber (currentDistance pkt nacked)] }
    else
      { outcome := Outcome.SendFeedback nack, state := st, log := [] }

/-- One iteration of the loop, lines 57-96, for the packet `pkt` that
`track.ReadRTP` returned; `ssrc` is `uint32(track.SSRC())`. -/
def observe (ssrc : Nat) (st : ProbeState) (pkt : Packet) : StepResult :=
  let st1 : ProbeState := countPacket st
  if matchesPending st1 pkt then
    match st1.pktNacked with
    | none => { outcome := Outcome.NilDereference, state := st1, log := [] }
    | some orig =>
      if orig.Payload ≠ pkt.Payload then
        { outcome := Outcome.IntegrityFailure, state := st1, log := [] }
      else
        { outcome := Outcome.VerifiedRetransmission,
          state := { st1 with
            largestGapRTXed := (st1.largestGapRTXed + windowSize) % 65536,
            pktNacked := none },
          log := [LogLine.correctlyRTXed pkt.SequenceNumber] }
  else if st1.wasNacked.contains pkt.SequenceNumber then
    { outcome := Outcome.Continue, state := st1, log := [] }
  else
    distanceStep ssrc (startProbe st1 pkt) pkt

/-- How the `for` loop stops: `ReadRTP` reports `io.EOF` (line 52), or the
goroutine panics (line 60, line 97, or a nil dereference). -/
inductive LoopEnd where
  | EndOfStream
  | Panicked
deriving DecidableEq, Repr

/-- The run of the loop over a stream: the outcome of each iteration that
ran, the variables when the loop stopped, the printed lines, and how it
stopped. -/
structure LoopResult where
  outcomes : List Outcome
  state : ProbeState
  log : List LogLine
  ended : LoopEnd
deriving DecidableEq, Repr

/-- Prepends one iteration to the rest of a run. -/
def LoopResult.after (r : StepResult) (rest : LoopResult) : LoopResult :=
  { outcomes := r.outcome :: rest.outcomes, state := rest.state,
    log := r.log ++ rest.log, ended := rest.ended }

/-- The run stops by a panic in the iteration `r`. -/
def LoopResult.panicked (r : StepResult) : LoopResult :=
  { outcomes := [r.outcome], state := r.state, log := r.log,
    ended := LoopEnd.Panicked }

/-- Whether the loop goes on to the next `ReadRTP` after an iteration that
ended with `o`; `written` tells whether `WriteRTCP` returned a nil error
(line 96), and only matters when the iteration called it. -/
def loopContinues (written : Bool) : Outcome → Bool
  | Outcome.Continue => true
  | Outcome.VerifiedRetransmission => true
  | Outcome.IntegrityFailure => false
  | Outcome.SendFeedback _ => written
  | Outcome.NilDereference => false

/-- The `for` loop of lines 49-99 over the packets that `ReadRTP` returns
before `io.EOF`.  `writeRTCP i` tells whether the `WriteRTCP` call of
iteration `i` returns a nil error (line 96); the `Nat` argument is the
number of the current iteration. -/
def packetLoop (ssrc : Nat) (writeRTCP : Nat → Bool) :
    Nat → ProbeState → List Packet → LoopResult
  | _, st, [] => { outcomes := [], state := st, log := [], ended := LoopEnd.EndOfStream }
  | i, st, pkt :: rest =>
    if loopContinues (writeRTCP i) (observe ssrc st pkt).outcome then
      LoopResult.after (observe ssrc st pkt)
        (packetLoop ssrc writeRTCP (i + 1) (observe ssrc st pkt).state rest)
    else LoopResult.panicked (observe ssrc st pkt)

/-- The states the loop variables can take: the initial one, and the one
left by an iteration that did not panic on a packet `ReadRTP` can return. -/
inductive Reachable (ssrc : Nat) : ProbeState → Prop where
  | init : Reachable ssrc initialState
  | step {st : ProbeState} (pkt : Packet) :
      Reachable ssrc st → pkt.wf →
      (observe ssrc st pkt).outcome ≠ Outcome.IntegrityFailure →
      Reachable ssrc (observe ssrc st pkt).state

/-- The stream of `n` packets with the consecutive sequence numbers
`s, s+1, ...` (in `uint16`), the `i`-th carrying the payload `payload i`. -/
def consecutive (s : Nat) (payload : Nat → List Nat) (n : Nat) : List Packet :=
  (List.range n).map (fun i => { SequenceNumber := (s + i) % 65536, Payload := payload i })

/-- The sequence numbers of a stream grow strictly from each packet to every
later one. -/
def StrictlyIncreasing (pkts : List Packet) : Prop :=
  (pkts.map (fun p => p.SequenceNumber)).Pairwise (fun a b => a < b)

instance (pkts : List Packet) : Decidable (StrictlyIncreasing pkts) := by
  unfold StrictlyIncreasing; exact inferInstance

/-- An iteration that settles a probe: the retransmission was verified, or the
payloads differed. -/
def Outcome.isResolution : Outcome → Bool
  | Outcome.VerifiedRetransmission => true
  | Outcome.IntegrityFailure => true
  | _ => false

/-- An iteration that called `WriteRTCP`. -/
def Outcome.isFeedback : Outcome → Bool
  | Outcome.SendFeedback _ => true
  | _ => false

/-- The number of iterations that sent feedback before the first iteration
that settled a probe. -/
def feedbackBeforeResolution (outcomes : List Outcome) : Nat :=
  ((outcomes.takeWhile (fun o => !o.isResolution)).filter Outcome.isFeedback).length

/-- The variables after the loop has read the packets `1, 2, ..., 51` with
empty payloads and every `WriteRTCP` has succeeded. -/
def stateAfter51 : ProbeState :=
  (packetLoop 7 (fun _ => true) 0 initialState (consecutive 1 (fun _ => []) 51)).state

/-- The NACK the loop builds for the sequence number `sequenceNumber`
(lines 90-94). -/
def nackFor (ssrc sequenceNumber : Nat) : TransportLayerNack :=
  { SenderSSRC := ssrc, MediaSSRC := ssrc, Nacks := [sequenceNumber] }

/-- The variables while the first probe `first` is in flight: nothing has
been verified yet and `first` is the only sequence number tried. -/
def firstProbeState (totalSeen : Nat) (first : Packet) : ProbeState :=
  { totalSeen := totalSeen, largestGapRTXed := 0, pktNacked := some first,
    wasNacked := [first.SequenceNumber] }

/-- What an iteration does with a packet that lies ahead of the first probe
`first` in a stream that has not wrapped: nothing below 50 sequence numbers
ahead, a NACK for `first` from there on. -/
def firstProbeOutcome (ssrc : Nat) (first pkt : Packet) : Outcome :=
  if pkt.SequenceNumber < first.SequenceNumber + 50 then Outcome.Continue
  else Outcome.SendFeedback (nackFor ssrc first.SequenceNumber)

/-- The variables after `k` rounds of duplicate delivery, that is after the
stream `0, 0, 1, 1, ..., k-1, k-1` of packets with empty payloads: every
second packet is verified against the first of its pair. -/
def stateAfterRounds (k : Nat) : ProbeState :=
  { totalSeen := (2 * k) % 65536, largestGapRTXed := (50 * k) % 65536,
    pktNacked := none, wasNacked := List.range k }

/-- The stream `0, 0, 1, 1, ..., k-1, k-1` of packets with empty payloads. -/
def duplicatePairs (k : Nat) : List Packet :=
  (List.range k).flatMap
    (fun i => [{ SequenceNumber := i, Payload := [] }, { SequenceNumber := i, Payload := [] }])

/-- The variables after `k` rounds of duplicate delivery and one more packet,
with sequence number `k`, which has become the pending probe. -/
def stateProbingAfterRounds (k : Nat) : ProbeState :=
  { totalSeen := (2 * k + 1) % 65536, largestGapRTXed := (50 * k) % 65536,
    pktNacked := some { SequenceNumber := k, Payload := [] },
    wasNacked := List.range (k + 1) }

/-! ## One iteration, case by case -/

theorem matchesPending_countPacket (st : ProbeState) (pkt : Packet) :
    matchesPending (countPacket st) pkt = matchesPending st pkt := rfl

theorem matchesPending_eq_true (st : ProbeState) (pkt : Packet) :
    matchesPending st pkt = true ↔
      ∃ orig, st.pktNacked = some orig ∧ orig.SequenceNumber = pkt.SequenceNumber := by
  unfold matchesPending
  cases h : st.pktNacked with
  | none => simp
  | some orig => simp

theorem matchesPending_some (st : ProbeState) (pkt orig : Packet)
    (h : st.pktNacked = some orig) :
    matchesPending st pkt = decide (orig.SequenceNumber = pkt.SequenceNumber) := by
  unfold matchesPending
  rw [h]
  by_cases e : orig.SequenceNumber = pkt.SequenceNumber <;> simp [e]

theorem matchesPending_none (st : ProbeState) (pkt : Packet)
    (h : st.pktNacked = none) : matchesPending st pkt = false := by
  unfold matchesPending
  rw [h]

/-- The match path with equal payloads (lines 58-66). -/
theorem observe_verified (ssrc : Nat) (st : ProbeState) (pkt orig : Packet)
    (hp : st.pktNacked = some orig)
    (hs : orig.SequenceNumber = pkt.SequenceNumber)
    (hb : orig.Payload = pkt.Payload) :
    observe ssrc st pkt =
      { outcome := Outcome.VerifiedRetransmission,
        state := { totalSeen := (st.totalSeen + 1) % 65536,
                   largestGapRTXed := (st.largestGapRTXed + windowSize) % 65536,
                   pktNacked := none,
                   wasNacked := st.wasNacked },
        log := [LogLine.correctlyRTXed pkt.SequenceNumber] } := by
  have hm : matchesPending (countPacket st) pkt = true := by
    rw [matchesPending_countPacket, matchesPending_some st pkt orig hp]; simp [hs]
  have hp1 : (countPacket st).pktNacked = some orig := hp
  simp only [observe, hm, if_true]
  rw [hp1]
  simp [hb, countPacket]

/-- The match path with different payloads (lines 58-60). -/
theorem observe_mismatch (ssrc : Nat) (st : ProbeState) (pkt orig : Packet)
    (hp : st.pktNacked = some orig)
    (hs : orig.SequenceNumber = pkt.SequenceNumber)
    (hb : orig.Payload ≠ pkt.Payload) :
    observe ssrc st pkt =
      { outcome := Outcome.IntegrityFailure, state := countPacket st, log := [] } := by
  have hm : matchesPending (countPacket st) pkt = true := by
    rw [matchesPending_countPacket, matchesPending_some st pkt orig hp]; simp [hs]
  have hp1 : (countPacket st).pktNacked = some orig := hp
  simp only [observe, hm, if_true]
  rw [hp1]
  simp [hb]

/-- A packet that does not match and was tried before (lines 70-72). -/
theorem observe_tried (ssrc : Nat) (st : ProbeState) (pkt : Packet)
    (hm : matchesPending st pkt = false)
    (ht : pkt.SequenceNumber ∈ st.wasNacked) :
    observe ssrc st pkt =
      { outcome := Outcome.Continue, state := countPacket st, log := [] } := by
  have hm1 : matchesPending (countPacket st) pkt = false := hm
  have hc : (countPacket st).wasNacked.contains pkt.SequenceNumber = true := by
    simpa [countPacket] using ht
  simp only [observe, hm1, hc, if_true, Bool.false_eq_true, if_false]

/-- A packet that does not match and was not tried before goes on to lines
75-96. -/
theorem observe_fresh (ssrc : Nat) (st : ProbeState) (pkt : Packet)
    (hm : matchesPending st pkt = false)
    (ht : pkt.SequenceNumber ∉ st.wasNacked) :
    observe ssrc st pkt = distanceStep ssrc (startProbe (countPacket st) pkt) pkt := by
  have hm1 : matchesPending (countPacket st) pkt = false := hm
  have hc : (countPacket st).wasNacked.contains pkt.SequenceNumber = false := by
    simpa [countPacket] using ht
  simp only [observe, hm1, hc, Bool.false_eq_true, if_false]

theorem startProbe_some (st : ProbeState) (pkt nacked : Packet)
    (h : st.pktNacked = some nacked) : startProbe st pkt = st := by
  unfold startProbe
  rw [h]

theorem startProbe_none (st : ProbeState) (pkt : Packet) (h : st.pktNacked = none) :
    startProbe st pkt =
      { st with pktNacked := some pkt,
                wasNacked := st.wasNacked ++ [pkt.SequenceNumber] } := by
  unfold startProbe
  rw [h]

/-- The probe in flight when lines 80-96 run: the one that was pending, or
the packet itself. -/
theorem startProbe_pktNacked (st : ProbeState) (pkt : Packet) :
    (startProbe st pkt).pktNacked = some (st.pktNacked.getD pkt) := by
  unfold startProbe
  cases h : st.pktNacked <;> simp [h]

theorem currentDistance_self (pkt : Packet) : currentDistance pkt pkt = 0 := by
  unfold currentDistance
  have : pkt.SequenceNumber + 65536 - pkt.SequenceNumber = 65536 := by omega
  rw [this]

/-- Lines 80-96 with a probe in flight. -/
theorem distanceStep_some (ssrc : Nat) (st : ProbeState) (pkt nacked : Packet)
    (h : st.pktNacked = some nacked) :
    distanceStep ssrc st pkt =
      if currentDistance pkt nacked < nackDistance st then
        { outcome := Outcome.Continue, state := st, log := [] }
      else if currentDistance pkt nacked = nackDistance st then
        { outcome := Outcome.SendFeedback
            { SenderSSRC := ssrc, MediaSSRC := ssrc, Nacks := [nacked.SequenceNumber] },
          state := st,
          log := [LogLine.sendingNack nacked.SequenceNumber (currentDistance pkt nacked)] }
      else
        { outcome := Outcome.SendFeedback
            { SenderSSRC := ssrc, MediaSSRC := ssrc, Nacks := [nacked.SequenceNumber] },
          state := st, log := [] } := by
  unfold distanceStep
  rw [h]

theorem distanceStep_state (ssrc : Nat) (st : ProbeState) (pkt : Packet) :
    (distanceStep ssrc st pkt).state = st := by
  unfold distanceStep
  cases h : st.pktNacked with
  | none => rfl
  | some nacked => simp only []; split_ifs <;> rfl

theorem distanceStep_outcome (ssrc : Nat) (st : ProbeState) (pkt nacked : Packet)
    (h : st.pktNacked = some nacked) :
    (distanceStep ssrc st pkt).outcome =
      if currentDistance pkt nacked < nackDistance st then Outcome.Continue
      else Outcome.SendFeedback
        { SenderSSRC := ssrc, MediaSSRC := ssrc, Nacks := [nacked.SequenceNumber] } := by
  rw [distanceStep_some ssrc st pkt nacked h]
  split_ifs <;> rfl

/-- An iteration with a probe pending, on a packet that neither matches it
nor was tried before. -/
theorem observe_pending (ssrc : Nat) (st : ProbeState) (pkt nacked : Packet)
    (hp : st.pktNacked = some nacked)
    (hne : nacked.SequenceNumber ≠ pkt.SequenceNumber)
    (ht : pkt.SequenceNumber ∉ st.wasNacked) :
    observe ssrc st pkt =
      if currentDistance pkt nacked < nackDistance st then
        { outcome := Outcome.Continue, state := countPacket st, log := [] }
      else if currentDistance pkt nacked = nackDistance st then
        { outcome := Outcome.SendFeedback (nackFor ssrc nacked.SequenceNumber),
          state := countPacket st,
          log := [LogLine.sendingNack nacked.SequenceNumber (currentDistance pkt nacked)] }
      else
        { outcome := Outcome.SendFeedback (nackFor ssrc nacked.SequenceNumber),
          state := countPacket st, log := [] } := by
  have hm : matchesPending st pkt = false := by
    rw [matchesPending_some st pkt nacked hp]; simp [hne]
  have hp1 : (countPacket st).pktNacked = some nacked := hp
  rw [observe_fresh ssrc st pkt hm ht, startProbe_some _ pkt nacked hp1,
    distanceStep_some ssrc _ pkt nacked hp1]
  rfl

/-- An iteration with no probe pending, on a packet that was not tried
before: the packet is adopted, and NACKed at once when `nackDistance` is 0. -/
theorem observe_adopt (ssrc : Nat) (st : ProbeState) (pkt : Packet)
    (hp : st.pktNacked = none) (ht : pkt.SequenceNumber ∉ st.wasNacked) :
    observe ssrc st pkt =
      if 0 < nackDistance st then
        { outcome := Outcome.Continue,
          state := { totalSeen := (st.totalSeen + 1) % 65536,
                     largestGapRTXed := st.largestGapRTXed,
                     pktNacked := some pkt,
                     wasNacked := st.wasNacked ++ [pkt.SequenceNumber] },
          log := [] }
      else
        { outcome := Outcome.SendFeedback (nackFor ssrc pkt.SequenceNumber),
          state := { totalSeen := (st.totalSeen + 1) % 65536,
                     largestGapRTXed := st.largestGapRTXed,
                     pktNacked := some pkt,
                     wasNacked := st.wasNacked ++ [pkt.SequenceNumber] },
          log := [LogLine.sendingNack pkt.SequenceNumber 0] } := by
  have h1 : (countPacket st).pktNacked = none := hp
  rw [observe_fresh ssrc st pkt (matchesPending_none st pkt hp) ht,
    startProbe_none _ pkt h1, distanceStep_some ssrc _ pkt pkt rfl, currentDistance_self]
  by_cases c : 0 < nackDistance st
  · rw [if_pos c, if_pos (by exact c)]
    rfl
  · have c0 : nackDistance st = 0 := by omega
    rw [if_neg c, if_neg (by exact c), if_pos (by exact c0.symm)]
    rfl

/-- The state in which an iteration adopts its packet as the probe. -/
theorem observe_adopt_state (ssrc : Nat) (st : ProbeState) (pkt : Packet)
    (hp : st.pktNacked = none) (ht : pkt.SequenceNumber ∉ st.wasNacked) :
    (observe ssrc st pkt).state =
      { totalSeen := (st.totalSeen + 1) % 65536, largestGapRTXed := st.largestGapRTXed,
        pktNacked := some pkt, wasNacked := st.wasNacked ++ [pkt.SequenceNumber] } := by
  rw [observe_fresh ssrc st pkt (matchesPending_none st pkt hp) ht, distanceStep_state,
    startProbe_none _ pkt (by exact hp)]
  rfl

/-- The four ways through one iteration. -/
theorem observe_cases (ssrc : Nat) (st : ProbeState) (pkt : Packet) :
    (∃ orig, st.pktNacked = some orig ∧ orig.SequenceNumber = pkt.SequenceNumber ∧
        orig.Payload = pkt.Payload ∧
        (observe ssrc st pkt).outcome = Outcome.VerifiedRetransmission ∧
        (observe ssrc st pkt).state =
          { totalSeen := (st.totalSeen + 1) % 65536,
            largestGapRTXed := (st.largestGapRTXed + windowSize) % 65536,
            pktNacked := none, wasNacked := st.wasNacked }) ∨
    (∃ orig, st.pktNacked = some orig ∧ orig.SequenceNumber = pkt.SequenceNumber ∧
        orig.Payload ≠ pkt.Payload ∧
        (observe ssrc st pkt).outcome = Outcome.IntegrityFailure ∧
        (observe ssrc st pkt).state = countPacket st) ∨
    (matchesPending st pkt = false ∧ pkt.SequenceNumber ∈ st.wasNacked ∧
        (observe ssrc st pkt).outcome = Outcome.Continue ∧
        (observe ssrc st pkt).state = countPacket st) ∨
    (matchesPending st pkt = false ∧ pkt.SequenceNumber ∉ st.wasNacked ∧
        (observe ssrc st pkt).state = startProbe (countPacket st) pkt ∧
        (observe ssrc st pkt).outcome =
          if currentDistance pkt (st.pktNacked.getD pkt) < nackDistance st then
            Outcome.Continue
          else Outcome.SendFeedback
            { SenderSSRC := ssrc, MediaSSRC := ssrc,
              Nacks := [(st.pktNacked.getD pkt).SequenceNumber] }) := by
  by_cases hm : matchesPending st pkt = true
  · obtain ⟨orig, hp, hs⟩ := (matchesPending_eq_true st pkt).1 hm
    by_cases hb : orig.Payload = pkt.Payload
    · left
      exact ⟨orig, hp, hs, hb, by rw [observe_verified ssrc st pkt orig hp hs hb],
        by rw [observe_verified ssrc st pkt orig hp hs hb]⟩
    · right; left
      exact ⟨orig, hp, hs, hb, by rw [observe_mismatch ssrc st pkt orig hp hs hb],
        by rw [observe_mismatch ssrc st pkt orig hp hs hb]⟩
  · have hm0 : matchesPending st pkt = false := by simpa using hm
    by_cases ht : pkt.SequenceNumber ∈ st.wasNacked
    · right; right; left
      exact ⟨hm0, ht, by rw [observe_tried ssrc st pkt hm0 ht],
        by rw [observe_tried ssrc st pkt hm0 ht]⟩
    · right; right; right
      refine ⟨hm0, ht, ?_, ?_⟩
      · rw [observe_fresh ssrc st pkt hm0 ht, distanceStep_state]
      · rw [observe_fresh ssrc st pkt hm0 ht,
          distanceStep_outcome ssrc _ pkt _ (startProbe_pktNacked (countPacket st) pkt)]
        have hn : nackDistance (startProbe (countPacket st) pkt) = nackDistance st := by
          unfold startProbe
          cases h : (countPacket st).pktNacked <;> rfl
        rw [hn]
        rfl

/-- The only panic of an iteration is the payload mismatch of line 60. -/
theorem observe_integrityFailure_iff (ssrc : Nat) (st : ProbeState) (pkt : Packet) :
    (observe ssrc st pkt).outcome = Outcome.IntegrityFailure ↔
      ∃ orig, st.pktNacked = some orig ∧
        orig.SequenceNumber = pkt.SequenceNumber ∧ orig.Payload ≠ pkt.Payload := by
  constructor
  · intro h
    rcases observe_cases ssrc st pkt with
      ⟨orig, _, _, _, ho, _⟩ | ⟨orig, hp, hs, hb, _, _⟩ | ⟨_, _, ho, _⟩ | ⟨_, _, _, ho⟩
    · rw [ho] at h; cases h
    · exact ⟨orig, hp, hs, hb⟩
    · rw [ho] at h; cases h
    · rw [ho] at h
      split_ifs at h
  · rintro ⟨orig, hp, hs, hb⟩
    rw [observe_mismatch ssrc st pkt orig hp hs hb]

/-- Lines 81 and 93 always find a probe in `pktNacked`. -/
theorem observe_ne_nilDereference (ssrc : Nat) (st : ProbeState) (pkt : Packet) :
    (observe ssrc st pkt).outcome ≠ Outcome.NilDereference := by
  intro h
  rcases observe_cases ssrc st pkt with
    ⟨_, _, _, _, ho, _⟩ | ⟨_, _, _, _, ho, _⟩ | ⟨_, _, ho, _⟩ | ⟨_, _, _, ho⟩
  · rw [ho] at h; cases h
  · rw [ho] at h; cases h
  · rw [ho] at h; cases h
  · rw [ho] at h
    split_ifs at h

/-- What an iteration does to `pktNacked` and `wasNacked`: either `wasNacked`
keeps its value and `pktNacked` keeps its value or becomes `nil`, or no probe
was pending, the packet was not tried before and it is adopted. -/
theorem observe_probe_change (ssrc : Nat) (st : ProbeState) (pkt : Packet) :
    ((observe ssrc st pkt).state.wasNacked = st.wasNacked ∧
      ((observe ssrc st pkt).state.pktNacked = st.pktNacked ∨
        (observe ssrc st pkt).state.pktNacked = none)) ∨
    (st.pktNacked = none ∧ pkt.SequenceNumber ∉ st.wasNacked ∧
      (observe ssrc st pkt).state.pktNacked = some pkt ∧
      (observe ssrc st pkt).state.wasNacked = st.wasNacked ++ [pkt.SequenceNumber]) := by
  rcases observe_cases ssrc st pkt with
    ⟨_, _, _, _, _, hst⟩ | ⟨_, _, _, _, _, hst⟩ | ⟨_, _, _, hst⟩ | ⟨_, ht, hst, _⟩
  · left; rw [hst]; exact ⟨rfl, Or.inr rfl⟩
  · left; rw [hst]; exact ⟨rfl, Or.inl rfl⟩
  · left; rw [hst]; exact ⟨rfl, Or.inl rfl⟩
  · cases hp : st.pktNacked with
    | none =>
      right
      rw [observe_adopt_state ssrc st pkt hp ht]
      exact ⟨rfl, ht, rfl, rfl⟩
    | some n =>
      left
      rw [hst, startProbe_some _ pkt n (by exact hp)]
      exact ⟨rfl, Or.inl hp⟩

/-! ## The loop over a stream -/

theorem packetLoop_nil (ssrc : Nat) (w : Nat → Bool) (i : Nat) (st : ProbeState) :
    packetLoop ssrc w i st [] =
      { outcomes := [], state := st, log := [], ended := LoopEnd.EndOfStream } := rfl

theorem packetLoop_cons (ssrc : Nat) (w : Nat → Bool) (i : Nat) (st : ProbeState)
    (pkt : Packet) (rest : List Packet) :
    packetLoop ssrc w i st (pkt :: rest) =
      if loopContinues (w i) (observe ssrc st pkt).outcome then
        LoopResult.after (observe ssrc st pkt)
          (packetLoop ssrc w (i + 1) (observe ssrc st pkt).state rest)
      else LoopResult.panicked (observe ssrc st pkt) := rfl

/-- A stream read to its end, followed by more packets. -/
theorem packetLoop_append (ssrc : Nat) (w : Nat → Bool) :
    ∀ (xs : List Packet) (i : Nat) (st : ProbeState) (ys : List Packet),
      (packetLoop ssrc w i st xs).ended = LoopEnd.EndOfStream →
      packetLoop ssrc w i st (xs ++ ys) =
        { outcomes := (packetLoop ssrc w i st xs).outcomes ++
            (packetLoop ssrc w (i + xs.length) (packetLoop ssrc w i st xs).state ys).outcomes,
          state :=
            (packetLoop ssrc w (i + xs.length) (packetLoop ssrc w i st xs).state ys).state,
          log := (packetLoop ssrc w i st xs).log ++
            (packetLoop ssrc w (i + xs.length) (packetLoop ssrc w i st xs).state ys).log,
          ended :=
            (packetLoop ssrc w (i + xs.length) (packetLoop ssrc w i st xs).state ys).ended } := by
  intro xs
  induction xs with
  | nil => intro i st ys _; simp [packetLoop_nil]
  | cons x xs ih =>
    intro i st ys h
    rw [packetLoop_cons] at h
    by_cases c : loopContinues (w i) (observe ssrc st x).outcome = true
    · rw [if_pos c] at h
      have h1 : (packetLoop ssrc w (i + 1) (observe ssrc st x).state xs).ended =
          LoopEnd.EndOfStream := h
      have e : i + (x :: xs).length = i + 1 + xs.length := by
        simp only [List.length_cons]; omega
      rw [List.cons_append, packetLoop_cons, packetLoop_cons, if_pos c, if_pos c,
        ih (i + 1) _ ys h1, e]
      simp [LoopResult.after]
    · rw [if_neg c] at h
      cases h

/-- With `WriteRTCP` succeeding, the loop goes on after every iteration but
the payload mismatch. -/
theorem loopContinues_observe (ssrc : Nat) (st : ProbeState) (pkt : Packet)
    (hne : (observe ssrc st pkt).outcome ≠ Outcome.IntegrityFailure) :
    loopContinues true (observe ssrc st pkt).outcome = true := by
  cases ho : (observe ssrc st pkt).outcome with
  | Continue => rfl
  | VerifiedRetransmission => rfl
  | IntegrityFailure => exact absurd ho hne
  | SendFeedback n => rfl
  | NilDereference => exact absurd ho (observe_ne_nilDereference ssrc st pkt)

/-! ## The first probe of a stream -/

/-- The first packet of a stream becomes the first probe. -/
theorem observe_initial (ssrc : Nat) (first : Packet) :
    observe ssrc initialState first =
      { outcome := Outcome.Continue, state := firstProbeState 1 first, log := [] } := by
  have hm : matchesPending initialState first = false := rfl
  have ht : first.SequenceNumber ∉ initialState.wasNacked := by simp [initialState]
  rw [observe_fresh ssrc _ first hm ht]
  have hs : startProbe (countPacket initialState) first = firstProbeState 1 first := rfl
  rw [hs, distanceStep_some ssrc _ first first rfl, currentDistance_self]
  have hn : nackDistance (firstProbeState 1 first) = 50 := rfl
  rw [hn, if_pos (by omega)]

/-- An iteration while the first probe is in flight, on a packet that does
not match it. -/
theorem observe_firstProbe (ssrc t : Nat) (first pkt : Packet)
    (hne : first.SequenceNumber ≠ pkt.SequenceNumber) :
    observe ssrc (firstProbeState t first) pkt =
      if currentDistance pkt first < 50 then
        { outcome := Outcome.Continue,
          state := firstProbeState ((t + 1) % 65536) first, log := [] }
      else if currentDistance pkt first = 50 then
        { outcome := Outcome.SendFeedback (nackFor ssrc first.SequenceNumber),
          state := firstProbeState ((t + 1) % 65536) first,
          log := [LogLine.sendingNack first.SequenceNumber (currentDistance pkt first)] }
      else
        { outcome := Outcome.SendFeedback (nackFor ssrc first.SequenceNumber),
          state := firstProbeState ((t + 1) % 65536) first, log := [] } := by
  have hm : matchesPending (firstProbeState t first) pkt = false := by
    rw [matchesPending_some _ pkt first rfl]; simp [hne]
  have ht : pkt.SequenceNumber ∉ (firstProbeState t first).wasNacked := by
    simp only [firstProbeState, List.mem_singleton]
    exact fun h => hne h.symm
  rw [observe_fresh ssrc _ pkt hm ht, startProbe_some _ pkt first rfl,
    distanceStep_some ssrc _ pkt first rfl]
  rfl

/-- The distance to a probe that lies behind in a stream that has not
wrapped. -/
theorem currentDistance_ahead (pkt first : Packet)
    (h1 : first.SequenceNumber < pkt.SequenceNumber) (h2 : pkt.SequenceNumber < 65536) :
    currentDistance pkt first = pkt.SequenceNumber - first.SequenceNumber := by
  unfold currentDistance
  omega

theorem observe_firstProbe_ahead (ssrc t : Nat) (first pkt : Packet)
    (h1 : first.SequenceNumber < pkt.SequenceNumber) (h2 : pkt.SequenceNumber < 65536) :
    (observe ssrc (firstProbeState t first) pkt).outcome = firstProbeOutcome ssrc first pkt ∧
    (observe ssrc (firstProbeState t first) pkt).state =
      firstProbeState ((t + 1) % 65536) first ∧
    (observe ssrc (firstProbeState t first) pkt).log =
      if pkt.SequenceNumber = first.SequenceNumber + 50 then
        [LogLine.sendingNack first.SequenceNumber 50] else [] := by
  rw [observe_firstProbe ssrc t first pkt (by omega), currentDistance_ahead pkt first h1 h2]
  unfold firstProbeOutcome
  by_cases c1 : pkt.SequenceNumber - first.SequenceNumber < 50
  · rw [if_pos c1, if_pos (by omega), if_neg (by omega)]
    exact ⟨rfl, rfl, rfl⟩
  · by_cases c2 : pkt.SequenceNumber - first.SequenceNumber = 50
    · rw [if_neg c1, if_pos c2, if_neg (by omega), if_pos (by omega), c2]
      exact ⟨rfl, rfl, rfl⟩
    · rw [if_neg c1, if_neg c2, if_neg (by omega), if_neg (by omega)]
      exact ⟨rfl, rfl, rfl⟩

/-- While the first probe is in flight, the outcomes of a stream that stays
ahead of it are those of `firstProbeOutcome`, up to the iteration at which the
loop stops. -/
theorem packetLoop_firstProbe_outcomes (ssrc : Nat) (w : Nat → Bool) (first : Packet) :
    ∀ (pkts : List Packet) (i t : Nat),
      (∀ p ∈ pkts, first.SequenceNumber < p.SequenceNumber ∧ p.SequenceNumber < 65536) →
      (packetLoop ssrc w i (firstProbeState t first) pkts).outcomes =
        (pkts.map (firstProbeOutcome ssrc first)).take
          (packetLoop ssrc w i (firstProbeState t first) pkts).outcomes.length := by
  intro pkts
  induction pkts with
  | nil => intro i t _; simp [packetLoop_nil]
  | cons p ps ih =>
    intro i t h
    obtain ⟨ho, hs, _⟩ := observe_firstProbe_ahead ssrc t first p
      (h p (List.mem_cons_self _ _)).1 (h p (List.mem_cons_self _ _)).2
    rw [packetLoop_cons]
    by_cases c : loopContinues (w i) (observe ssrc (firstProbeState t first) p).outcome = true
    · rw [if_pos c, hs]
      have ih1 := ih (i + 1) ((t + 1) % 65536)
        (fun q hq => h q (List.mem_cons_of_mem _ hq))
      simp only [LoopResult.after, List.length_cons, List.map_cons, List.take_succ_cons, ho]
      rw [← ih1]
    · rw [if_neg c]
      simp [LoopResult.panicked, ho]

/-- While the first probe is in flight and every `WriteRTCP` of the run
succeeds, the loop reads a stream that stays ahead of the probe to its end:
one outcome for each packet, that of `firstProbeOutcome`. -/
theorem packetLoop_firstProbe_complete (ssrc : Nat) (w : Nat → Bool) (first : Packet) :
    ∀ (pkts : List Packet) (i t : Nat),
      (∀ p ∈ pkts, first.SequenceNumber < p.SequenceNumber ∧ p.SequenceNumber < 65536) →
      (∀ j, j < pkts.length → w (i + j) = true) →
      (packetLoop ssrc w i (firstProbeState t first) pkts).outcomes =
        pkts.map (firstProbeOutcome ssrc first) ∧
      (packetLoop ssrc w i (firstProbeState t first) pkts).ended = LoopEnd.EndOfStream := by
  intro pkts
  induction pkts with
  | nil => intro i t _ _; exact ⟨rfl, rfl⟩
  | cons p ps ih =>
    intro i t h hw
    obtain ⟨ho, hs, _⟩ := observe_firstProbe_ahead ssrc t first p
      (h p (List.mem_cons_self _ _)).1 (h p (List.mem_cons_self _ _)).2
    have hwi : w i = true := by
      have := hw 0 (by simp)
      simpa using this
    have c : loopContinues (w i) (observe ssrc (firstProbeState t first) p).outcome = true := by
      rw [ho, hwi]
      unfold firstProbeOutcome
      split_ifs <;> rfl
    have ih1 := ih (i + 1) ((t + 1) % 65536)
      (fun q hq => h q (List.mem_cons_of_mem _ hq))
      (fun j hj => by
        have := hw (j + 1) (by simp only [List.length_cons]; omega)
        rw [← this]
        congr 1
        omega)
    rw [packetLoop_cons, if_pos c, hs]
    simp only [LoopResult.after, List.map_cons, ho]
    exact ⟨by rw [ih1.1], ih1.2⟩

/-- Once the stream is more than 50 ahead of the first probe, the loop no
longer prints. -/
theorem packetLoop_firstProbe_quiet (ssrc : Nat) (w : Nat → Bool) (first : Packet) :
    ∀ (pkts : List Packet) (i t : Nat),
      (∀ p ∈ pkts, first.SequenceNumber + 50 < p.SequenceNumber ∧
        p.SequenceNumber < 65536) →
      (packetLoop ssrc w i (firstProbeState t first) pkts).log = [] := by
  intro pkts
  induction pkts with
  | nil => intro i t _; rfl
  | cons p ps ih =>
    intro i t h
    have hp := h p (List.mem_cons_self _ _)
    obtain ⟨_, hs, hl⟩ := observe_firstProbe_ahead ssrc t first p (by omega) hp.2
    rw [if_neg (by omega)] at hl
    rw [packetLoop_cons]
    by_cases c : loopContinues (w i) (observe ssrc (firstProbeState t first) p).outcome = true
    · rw [if_pos c, hs]
      simp only [LoopResult.after, hl, List.nil_append]
      exact ih (i + 1) _ (fun q hq => h q (List.mem_cons_of_mem _ hq))
    · rw [if_neg c]
      simpa [LoopResult.panicked] using hl

/-- While the first probe is in flight, a stream with strictly increasing
sequence numbers ahead of it makes the loop print at most one line. -/
theorem packetLoop_firstProbe_log (ssrc : Nat) (w : Nat → Bool) (first : Packet) :
    ∀ (pkts : List Packet) (i t : Nat),
      (∀ p ∈ pkts, first.SequenceNumber < p.SequenceNumber ∧ p.SequenceNumber < 65536) →
      StrictlyIncreasing pkts →
      (packetLoop ssrc w i (firstProbeState t first) pkts).log.length ≤ 1 := by
  intro pkts
  induction pkts with
  | nil => intro i t _ _; simp [packetLoop_nil]
  | cons p ps ih =>
    intro i t h hinc
    have hp := h p (List.mem_cons_self _ _)
    have hps : ∀ q ∈ ps, first.SequenceNumber < q.SequenceNumber ∧ q.SequenceNumber < 65536 :=
      fun q hq => h q (List.mem_cons_of_mem _ hq)
    unfold StrictlyIncreasing at hinc
    rw [List.map_cons, List.pairwise_cons] at hinc
    obtain ⟨_, hs, hl⟩ := observe_firstProbe_ahead ssrc t first p hp.1 hp.2
    rw [packetLoop_cons]
    by_cases c : loopContinues (w i) (observe ssrc (firstProbeState t first) p).outcome = true
    · rw [if_pos c, hs]
      simp only [LoopResult.after, hl, List.length_append]
      by_cases e : p.SequenceNumber = first.SequenceNumber + 50
      · have hq : ∀ q ∈ ps, first.SequenceNumber + 50 < q.SequenceNumber ∧
            q.SequenceNumber < 65536 := by
          intro q hq
          have := hinc.1 q.SequenceNumber (List.mem_map_of_mem _ hq)
          exact ⟨by omega, (hps q hq).2⟩
        rw [packetLoop_firstProbe_quiet ssrc w first ps (i + 1) _ hq, if_pos e]
        simp
      · rw [if_neg e]
        simpa using ih (i + 1) _ hps hinc.2
    · rw [if_neg c]
      simp only [LoopResult.panicked, hl]
      split_ifs <;> simp

/-! ## Consecutive streams -/

theorem consecutive_succ (s : Nat) (payload : Nat → List Nat) (n : Nat) :
    consecutive s payload (n + 1) =
      consecutive s payload n ++
        [{ SequenceNumber := (s + n) % 65536, Payload := payload n }] := by
  simp [consecutive, List.range_succ]

theorem consecutive_length (s : Nat) (payload : Nat → List Nat) (n : Nat) :
    (consecutive s payload n).length = n := by
  simp [consecutive]

theorem currentDistance_consecutive (s j : Nat) (p q : List Nat)
    (hs : s < 65536) (hj : j < 65536) :
    currentDistance { SequenceNumber := (s + j) % 65536, Payload := p }
      { SequenceNumber := s, Payload := q } = j := by
  unfold currentDistance
  simp only
  omega

/-- The first `n + 1 ≤ 50` packets of a consecutive stream: the first one
becomes the probe, and every iteration ends in `Continue`. -/
theorem packetLoop_consecutive (ssrc : Nat) (w : Nat → Bool) (s : Nat)
    (payload : Nat → List Nat) (hs : s < 65536) :
    ∀ n, n + 1 ≤ 50 →
      packetLoop ssrc w 0 initialState (consecutive s payload (n + 1)) =
        { outcomes := List.replicate (n + 1) Outcome.Continue,
          state := firstProbeState (n + 1) { SequenceNumber := s, Payload := payload 0 },
          log := [], ended := LoopEnd.EndOfStream } := by
  intro n
  induction n with
  | zero =>
    intro _
    have e : consecutive s payload 1 = [{ SequenceNumber := s, Payload := payload 0 }] := by
      simp [consecutive, List.range_succ, Nat.mod_eq_of_lt hs]
    rw [e, packetLoop_cons, observe_initial]
    rfl
  | succ n ih =>
    intro hn
    have ih1 := ih (by omega)
    have hne : ({ SequenceNumber := s, Payload := payload 0 } : Packet).SequenceNumber ≠
        ({ SequenceNumber := (s + (n + 1)) % 65536,
           Payload := payload (n + 1) } : Packet).SequenceNumber := by
      show s ≠ (s + (n + 1)) % 65536
      omega
    rw [consecutive_succ s payload (n + 1), packetLoop_append ssrc w _ 0 _ _ (by rw [ih1]),
      ih1, consecutive_length]
    simp only [packetLoop_cons, packetLoop_nil]
    have hlt : n + 1 < 50 := by omega
    have hm : (n + 1 + 1) % 65536 = n + 1 + 1 := Nat.mod_eq_of_lt (by omega)
    rw [observe_firstProbe ssrc _ _ _ hne,
      currentDistance_consecutive s (n + 1) _ _ hs (by omega)]
    simp only [hlt, if_true, loopContinues, LoopResult.after, List.append_nil, hm]
    rw [← List.replicate_succ']

/-- The 51 packets of a consecutive stream: the first 50 iterations end in
`Continue`, the 51st sends the NACK for the first packet and prints. -/
theorem packetLoop_consecutive_51 (ssrc : Nat) (w : Nat → Bool) (s : Nat)
    (payload : Nat → List Nat) (hs : s < 65536) :
    packetLoop ssrc w 0 initialState (consecutive s payload 51) =
      { outcomes := List.replicate 50 Outcome.Continue ++
          [Outcome.SendFeedback (nackFor ssrc s)],
        state := firstProbeState 51 { SequenceNumber := s, Payload := payload 0 },
        log := [LogLine.sendingNack s 50],
        ended := if w 50 then LoopEnd.EndOfStream else LoopEnd.Panicked } := by
  have h50 := packetLoop_consecutive ssrc w s payload hs 49 (by omega)
  have hne : ({ SequenceNumber := s, Payload := payload 0 } : Packet).SequenceNumber ≠
      ({ SequenceNumber := (s + 50) % 65536, Payload := payload 50 } : Packet).SequenceNumber := by
    show s ≠ (s + 50) % 65536
    omega
  rw [consecutive_succ s payload 50, packetLoop_append ssrc w _ 0 _ _ (by rw [h50]),
    h50, consecutive_length]
  simp only [packetLoop_cons, packetLoop_nil]
  rw [observe_firstProbe ssrc _ _ _ hne,
    currentDistance_consecutive s 50 _ _ hs (by omega)]
  simp only [lt_irrefl, if_false, if_true, loopContinues, Nat.zero_add]
  cases w 50 <;> simp [LoopResult.after, LoopResult.panicked]

theorem feedbackBeforeResolution_replicate (nack : TransportLayerNack) (n : Nat) :
    feedbackBeforeResolution
      (List.replicate n Outcome.Continue ++ [Outcome.SendFeedback nack]) = 1 := by
  induction n with
  | zero => rfl
  | succ n ih =>
    have e : feedbackBeforeResolution
        (List.replicate (n + 1) Outcome.Continue ++ [Outcome.SendFeedback nack]) =
        feedbackBeforeResolution
          (List.replicate n Outcome.Continue ++ [Outcome.SendFeedback nack]) := rfl
    rw [e, ih]

/-! ## Reachable states -/

/-- The states of the loop are reachable: a stream read to its end leaves a
reachable state. -/
theorem reachable_packetLoop (ssrc : Nat) (w : Nat → Bool) :
    ∀ (pkts : List Packet) (i : Nat) (st : ProbeState),
      Reachable ssrc st → (∀ p ∈ pkts, p.wf) →
      (packetLoop ssrc w i st pkts).ended = LoopEnd.EndOfStream →
      Reachable ssrc (packetLoop ssrc w i st pkts).state := by
  intro pkts
  induction pkts with
  | nil => intro i st h _ _; exact h
  | cons p ps ih =>
    intro i st h hwf hend
    rw [packetLoop_cons] at hend ⊢
    by_cases c : loopContinues (w i) (observe ssrc st p).outcome = true
    · rw [if_pos c] at hend ⊢
      have hne : (observe ssrc st p).outcome ≠ Outcome.IntegrityFailure := by
        intro e
        rw [e] at c
        cases c
      exact ih (i + 1) _ (Reachable.step p h (hwf p (List.mem_cons_self _ _)) hne)
        (fun q hq => hwf q (List.mem_cons_of_mem _ hq)) hend
    · rw [if_neg c] at hend
      cases hend

/-- Every reachable state is left by the loop at the end of some stream (with
every `WriteRTCP` succeeding). -/
theorem packetLoop_of_reachable (ssrc : Nat) (st : ProbeState) (h : Reachable ssrc st) :
    ∃ pkts : List Packet, (∀ p ∈ pkts, p.wf) ∧
      (packetLoop ssrc (fun _ => true) 0 initialState pkts).ended = LoopEnd.EndOfStream ∧
      (packetLoop ssrc (fun _ => true) 0 initialState pkts).state = st := by
  induction h with
  | init => exact ⟨[], by simp, rfl, rfl⟩
  | @step st pkt _ hwf hne ih =>
    obtain ⟨pkts, hwfs, hend, hst⟩ := ih
    refine ⟨pkts ++ [pkt], ?_, ?_, ?_⟩
    · intro p hp
      rcases List.mem_append.1 hp with hp | hp
      · exact hwfs p hp
      · rw [List.mem_singleton.1 hp]; exact hwf
    · rw [packetLoop_append ssrc _ pkts 0 _ _ hend, hst]
      simp only [packetLoop_cons, packetLoop_nil]
      have c := loopContinues_observe ssrc st pkt hne
      rw [if_pos c]
      rfl
    · rw [packetLoop_append ssrc _ pkts 0 _ _ hend, hst]
      simp only [packetLoop_cons, packetLoop_nil]
      have c := loopContinues_observe ssrc st pkt hne
      rw [if_pos c]
      rfl

/-- In every reachable state `wasNacked` has no duplicate and holds the
sequence number of the pending probe. -/
theorem reachable_invariant (ssrc : Nat) (st : ProbeState) (h : Reachable ssrc st) :
    st.wasNacked.Nodup ∧
      ∀ n, st.pktNacked = some n → n.SequenceNumber ∈ st.wasNacked := by
  induction h with
  | init => exact ⟨List.nodup_nil, fun n hn => by cases hn⟩
  | @step st pkt _ _ _ ih =>
    rcases observe_probe_change ssrc st pkt with ⟨hw, hp | hp⟩ | ⟨_, ht, hp, hw⟩
    · rw [hw, hp]; exact ih
    · rw [hw, hp]; exact ⟨ih.1, fun n hn => by cases hn⟩
    · rw [hw, hp]
      refine ⟨?_, ?_⟩
      · rw [List.nodup_append]
        refine ⟨ih.1, List.nodup_singleton _, ?_⟩
        intro a ha hb
        rw [List.mem_singleton.1 hb] at ha
        exact ht ha
      · intro n hn
        have e : pkt = n := by simpa using hn
        rw [← e]
        simp

theorem observe_rounds_adopt (ssrc k : Nat) :
    (observe ssrc (stateAfterRounds k) { SequenceNumber := k, Payload := [] }).outcome ≠
        Outcome.IntegrityFailure ∧
    (observe ssrc (stateAfterRounds k) { SequenceNumber := k, Payload := [] }).state =
      stateProbingAfterRounds k := by
  have hnone : (stateAfterRounds k).pktNacked = none := rfl
  have ht : ({ SequenceNumber := k, Payload := [] } : Packet).SequenceNumber ∉
      (stateAfterRounds k).wasNacked := by
    simp [stateAfterRounds]
  constructor
  · intro hi
    obtain ⟨orig, hp, _⟩ := (observe_integrityFailure_iff ssrc _ _).1 hi
    rw [hnone] at hp
    cases hp
  · rw [observe_adopt_state ssrc _ _ hnone ht]
    simp only [stateProbingAfterRounds, stateAfterRounds, List.range_succ]
    congr 1
    omega

theorem observe_rounds_verify (ssrc k : Nat) :
    observe ssrc (stateProbingAfterRounds k) { SequenceNumber := k, Payload := [] } =
      { outcome := Outcome.VerifiedRetransmission, state := stateAfterRounds (k + 1),
        log := [LogLine.correctlyRTXed k] } := by
  rw [observe_verified ssrc (stateProbingAfterRounds k)
    { SequenceNumber := k, Payload := [] } { SequenceNumber := k, Payload := [] } rfl rfl rfl]
  simp only [stateProbingAfterRounds, stateAfterRounds, windowSize]
  congr 2 <;> omega

/-- The stream `0, 0, 1, 1, ..., k-1, k-1` is read to its end and leaves the
variables in `stateAfterRounds k`. -/
theorem packetLoop_duplicatePairs (ssrc : Nat) :
    ∀ k, (packetLoop ssrc (fun _ => true) 0 initialState (duplicatePairs k)).ended =
        LoopEnd.EndOfStream ∧
      (packetLoop ssrc (fun _ => true) 0 initialState (duplicatePairs k)).state =
        stateAfterRounds k := by
  intro k
  induction k with
  | zero => exact ⟨rfl, rfl⟩
  | succ k ih =>
    have e : duplicatePairs (k + 1) = duplicatePairs k ++
        [{ SequenceNumber := k, Payload := [] }, { SequenceNumber := k, Payload := [] }] := by
      simp [duplicatePairs, List.range_succ]
    obtain ⟨h1, h2⟩ := observe_rounds_adopt ssrc k
    have c1 := loopContinues_observe ssrc _ _ h1
    rw [e, packetLoop_append ssrc _ _ 0 _ _ ih.1, ih.2]
    simp only [packetLoop_cons, packetLoop_nil]
    rw [if_pos c1, h2, observe_rounds_verify]
    exact ⟨rfl, rfl⟩

/-- One more packet after `k` rounds of duplicate delivery. -/
theorem reachable_probing_of_rounds (ssrc k : Nat) (hk : k < 65536)
    (h : Reachable ssrc (stateAfterRounds k)) :
    Reachable ssrc (stateProbingAfterRounds k) := by
  obtain ⟨hne, hst⟩ := observe_rounds_adopt ssrc k
  have h1 := Reachable.step { SequenceNumber := k, Payload := [] } h ⟨hk, by simp⟩ hne
  rw [hst] at h1
  exact h1

/-- Every number of rounds of duplicate delivery up to 65536 is reachable:
each round uses a sequence number not tried before. -/
theorem reachable_rounds (ssrc : Nat) :
    ∀ k, k ≤ 65536 → Reachable ssrc (stateAfterRounds k) := by
  intro k
  induction k with
  | zero => intro _; exact Reachable.init
  | succ k ih =>
    intro hk
    have h1 := reachable_probing_of_rounds ssrc k (by omega) (ih (by omega))
    have hv := observe_rounds_verify ssrc k
    have hne : (observe ssrc (stateProbingAfterRounds k)
        { SequenceNumber := k, Payload := [] }).outcome ≠ Outcome.IntegrityFailure := by
      rw [hv]; simp
    have h2 := Reachable.step { SequenceNumber := k, Payload := [] } h1
      ⟨(by omega : k < 65536), by simp⟩ hne
    rw [hv] at h2
    exact h2

/-! ## The origin of the pending probe -/

/-- The probe that is pending when a stream has been read to its end was
pending at the start, or is a packet of the stream that was adopted when it
was read: no probe was pending then and its sequence number had not been
tried. -/
theorem packetLoop_pending_origin (ssrc : Nat) (w : Nat → Bool) (orig : Packet) :
    ∀ (pkts : List Packet) (i : Nat) (st : ProbeState),
      (packetLoop ssrc w i st pkts).ended = LoopEnd.EndOfStream →
      (packetLoop ssrc w i st pkts).state.pktNacked = some orig →
      st.pktNacked = some orig ∨
      ∃ a b, pkts = a ++ orig :: b ∧
        (packetLoop ssrc w i st a).ended = LoopEnd.EndOfStream ∧
        (packetLoop ssrc w i st a).state.pktNacked = none ∧
        orig.SequenceNumber ∉ (packetLoop ssrc w i st a).state.wasNacked := by
  intro pkts
  induction pkts with
  | nil => intro i st _ h; exact Or.inl h
  | cons p ps ih =>
    intro i st hend hpend
    rw [packetLoop_cons] at hend hpend
    by_cases c : loopContinues (w i) (observe ssrc st p).outcome = true
    · rw [if_pos c] at hend hpend
      rcases ih (i + 1) (observe ssrc st p).state hend hpend with h1 | ⟨a, b, hab, ha1, ha2, ha3⟩
      · rcases observe_probe_change ssrc st p with ⟨_, hp | hp⟩ | ⟨hnone, ht, hp, _⟩
        · rw [hp] at h1; exact Or.inl h1
        · rw [hp] at h1; cases h1
        · rw [hp] at h1
          have e : p = orig := by simpa using h1
          subst e
          exact Or.inr ⟨[], ps, rfl, rfl, hnone, ht⟩
      · refine Or.inr ⟨p :: a, b, by rw [hab]; rfl, ?_, ?_, ?_⟩
        · rw [packetLoop_cons, if_pos c]; exact ha1
        · rw [packetLoop_cons, if_pos c]; exact ha2
        · rw [packetLoop_cons, if_pos c]; exact ha3
    · rw [if_neg c] at hend
      cases hend

/-! ## A stream that wraps around -/

/-- Beyond the 51st packet of a consecutive stream, and as long as the
sequence numbers have not come back to the first one, every iteration sends
the NACK for the first packet again (every `WriteRTCP` succeeding). -/
theorem packetLoop_consecutive_beyond (ssrc : Nat) (w : Nat → Bool) (s : Nat)
    (payload : Nat → List Nat) (hs : s < 65536) (hw : ∀ i, w i = true) :
    ∀ n, 51 + n ≤ 65536 →
      packetLoop ssrc w 0 initialState (consecutive s payload (51 + n)) =
        { outcomes := List.replicate 50 Outcome.Continue ++
            List.replicate (n + 1) (Outcome.SendFeedback (nackFor ssrc s)),
          state := firstProbeState ((51 + n) % 65536)
            { SequenceNumber := s, Payload := payload 0 },
          log := [LogLine.sendingNack s 50],
          ended := LoopEnd.EndOfStream } := by
  intro n
  induction n with
  | zero =>
    intro _
    rw [packetLoop_consecutive_51 ssrc w s payload hs, hw 50]
    rfl
  | succ n ih =>
    intro hn
    have ih1 := ih (by omega)
    have hne : ({ SequenceNumber := s, Payload := payload 0 } : Packet).SequenceNumber ≠
        ({ SequenceNumber := (s + (51 + n)) % 65536,
           Payload := payload (51 + n) } : Packet).SequenceNumber := by
      show s ≠ (s + (51 + n)) % 65536
      omega
    have e : 51 + (n + 1) = (51 + n) + 1 := by omega
    have h1 : ¬ (51 + n < 50) := by omega
    have h2 : ¬ (51 + n = 50) := by omega
    have hm : ((51 + n) % 65536 + 1) % 65536 = (51 + n + 1) % 65536 := by omega
    rw [e, consecutive_succ s payload (51 + n),
      packetLoop_append ssrc w _ 0 _ _ (by rw [ih1]), ih1, consecutive_length]
    simp only [packetLoop_cons, packetLoop_nil]
    rw [observe_firstProbe ssrc _ _ _ hne,
      currentDistance_consecutive s (51 + n) _ _ hs (by omega)]
    simp only [h1, h2, if_false, loopContinues, hw, if_true, LoopResult.after,
      List.append_nil, hm]
    rw [List.append_assoc, ← List.replicate_succ']

/-! ## Packets beyond the boundary -/

/-- C1, as the code behaves: when a packet neither matches the pending probe
nor was tried before and its distance to the probe in flight is strictly
greater than `nackDistance`, the iteration calls `WriteRTCP` with a NACK for
the pending probe's sequence number, prints nothing, and leaves
`pktNacked`, `largestGapRTXed` and `wasNacked` as they were. -/
theorem C1_beyond_boundary_sends_feedback (ssrc : Nat) (st : ProbeState)
    (pkt nacked : Packet)
    (hm : matchesPending st pkt = false)
    (ht : pkt.SequenceNumber ∉ st.wasNacked)
    (hp : (startProbe st pkt).pktNacked = some nacked)
    (hd : nackDistance st < currentDistance pkt nacked) :
    st.pktNacked = some nacked ∧
    observe ssrc st pkt =
      { outcome := Outcome.SendFeedback
          { SenderSSRC := ssrc, MediaSSRC := ssrc, Nacks := [nacked.SequenceNumber] },
        state := countPacket st, log := [] } := by
  have hpend : st.pktNacked = some nacked := by
    cases h : st.pktNacked with
    | none =>
      rw [startProbe_none st pkt h] at hp
      have e : pkt = nacked := by simpa using hp
      subst e
      rw [currentDistance_self] at hd
      omega
    | some n =>
      rw [startProbe_some st pkt n h, h] at hp
      exact hp
  refine ⟨hpend, ?_⟩
  have hp1 : (countPacket st).pktNacked = some nacked := hpend
  rw [observe_fresh ssrc st pkt hm ht, startProbe_some _ pkt nacked hp1,
    distanceStep_some ssrc _ pkt nacked hp1]
  have hn : nackDistance (countPacket st) = nackDistance st := rfl
  rw [hn, if_neg (by omega), if_neg (by omega)]

/-- C1 witness: the packet 52 after the packets 1 to 51. -/
theorem C1_beyond_boundary_sends_feedback_witness :
    stateAfter51.pktNacked = some { SequenceNumber := 1, Payload := [] } ∧
    observe 7 stateAfter51 { SequenceNumber := 52, Payload := [] } =
      { outcome := Outcome.SendFeedback
          { SenderSSRC := 7, MediaSSRC := 7, Nacks := [1] },
        state := countPacket stateAfter51, log := [] } :=
  C1_beyond_boundary_sends_feedback 7 stateAfter51
    { SequenceNumber := 52, Payload := [] } { SequenceNumber := 1, Payload := [] }
    (by decide) (by decide) (by decide) (by decide)

/-- C1 fails as stated: after the packets 1 to 51 the probe for sequence
number 1 is pending; the packet 52 does not match it, was not tried, and is
at distance 51 > 50, yet the iteration does not end in `Continue`: it sends
a NACK for sequence number 1 again. -/
theorem C1_counterexample :
    stateAfter51 =
      { totalSeen := 51, largestGapRTXed := 0,
        pktNacked := some { SequenceNumber := 1, Payload := [] }, wasNacked := [1] } ∧
    Packet.wf { SequenceNumber := 52, Payload := [] } ∧
    matchesPending stateAfter51 { SequenceNumber := 52, Payload := [] } = false ∧
    52 ∉ stateAfter51.wasNacked ∧
    nackDistance stateAfter51 <
      currentDistance { SequenceNumber := 52, Payload := [] }
        { SequenceNumber := 1, Payload := [] } ∧
    (observe 7 stateAfter51 { SequenceNumber := 52, Payload := [] }).outcome ≠
      Outcome.Continue ∧
    (observe 7 stateAfter51 { SequenceNumber := 52, Payload := [] }).outcome =
      Outcome.SendFeedback { SenderSSRC := 7, MediaSSRC := 7, Nacks := [1] } := by
  decide

/-! ## An increasing stream -/

/-- C2, as the code behaves: on a stream with strictly increasing sequence
numbers fed from the initial state, the first packet is the only probe.  The
outcome of each iteration that runs is `Continue` while the packet is less
than 50 ahead of the first one and `SendFeedback` for the first packet's
sequence number from 50 ahead on; so every outcome is `Continue` or a NACK
for that one sequence number, and at most one line is printed (the NACK at
distance exactly 50).  The first iteration always runs, and when every
`WriteRTCP` of the run succeeds the loop reads the whole stream: there is one
outcome for each packet, so the NACK is sent again for every packet that is
50 or more ahead of the first one. -/
theorem C2_increasing_stream_single_target (ssrc : Nat) (w : Nat → Bool)
    (first : Packet) (rest : List Packet)
    (hwf : ∀ p ∈ first :: rest, p.wf)
    (hinc : StrictlyIncreasing (first :: rest)) :
    (packetLoop ssrc w 0 initialState (first :: rest)).outcomes =
      ((first :: rest).map (firstProbeOutcome ssrc first)).take
        (packetLoop ssrc w 0 initialState (first :: rest)).outcomes.length ∧
    (∀ o ∈ (packetLoop ssrc w 0 initialState (first :: rest)).outcomes,
      o = Outcome.Continue ∨
      o = Outcome.SendFeedback (nackFor ssrc first.SequenceNumber)) ∧
    (packetLoop ssrc w 0 initialState (first :: rest)).log.length ≤ 1 ∧
    1 ≤ (packetLoop ssrc w 0 initialState (first :: rest)).outcomes.length ∧
    ((∀ i, i < (first :: rest).length → w i = true) →
      (packetLoop ssrc w 0 initialState (first :: rest)).outcomes =
        (first :: rest).map (firstProbeOutcome ssrc first) ∧
      (packetLoop ssrc w 0 initialState (first :: rest)).ended = LoopEnd.EndOfStream ∧
      (packetLoop ssrc w 0 initialState (first :: rest)).outcomes.length =
        (first :: rest).length ∧
      ∀ p ∈ rest, first.SequenceNumber + 50 ≤ p.SequenceNumber →
        Outcome.SendFeedback (nackFor ssrc first.SequenceNumber) ∈
          (packetLoop ssrc w 0 initialState (first :: rest)).outcomes) := by
  have hinc0 := hinc
  unfold StrictlyIncreasing at hinc
  rw [List.map_cons, List.pairwise_cons] at hinc
  have hrest : ∀ p ∈ rest,
      first.SequenceNumber < p.SequenceNumber ∧ p.SequenceNumber < 65536 := by
    intro p hp
    exact ⟨hinc.1 p.SequenceNumber (List.mem_map_of_mem _ hp),
      (hwf p (List.mem_cons_of_mem _ hp)).1⟩
  have hfirst : firstProbeOutcome ssrc first first = Outcome.Continue := by
    unfold firstProbeOutcome
    rw [if_pos (by omega)]
  have hloop : packetLoop ssrc w 0 initialState (first :: rest) =
      LoopResult.after
        { outcome := Outcome.Continue, state := firstProbeState 1 first, log := [] }
        (packetLoop ssrc w 1 (firstProbeState 1 first) rest) := by
    rw [packetLoop_cons, observe_initial]
    rfl
  have houts := packetLoop_firstProbe_outcomes ssrc w first rest 1 1 hrest
  have hout : (packetLoop ssrc w 0 initialState (first :: rest)).outcomes =
      ((first :: rest).map (firstProbeOutcome ssrc first)).take
        (packetLoop ssrc w 0 initialState (first :: rest)).outcomes.length := by
    rw [hloop]
    simp only [LoopResult.after, List.length_cons, List.map_cons, List.take_succ_cons, hfirst]
    rw [← houts]
  refine ⟨hout, ?_, ?_, ?_, ?_⟩
  · intro o ho
    rw [hout] at ho
    have ho1 := List.mem_of_mem_take ho
    obtain ⟨p, _, hp⟩ := List.mem_map.1 ho1
    rw [← hp]
    unfold firstProbeOutcome
    split_ifs
    · exact Or.inl rfl
    · exact Or.inr rfl
  · rw [hloop]
    simp only [LoopResult.after, List.nil_append]
    exact packetLoop_firstProbe_log ssrc w first rest 1 1 hrest hinc.2
  · rw [hloop]
    simp [LoopResult.after]
  · intro hw
    have hfull := packetLoop_firstProbe_complete ssrc w first rest 1 1 hrest
      (fun j hj => hw (1 + j) (by simp only [List.length_cons]; omega))
    have hall : (packetLoop ssrc w 0 initialState (first :: rest)).outcomes =
        (first :: rest).map (firstProbeOutcome ssrc first) := by
      rw [hloop]
      simp only [LoopResult.after, List.map_cons, hfirst]
      rw [hfull.1]
    refine ⟨hall, ?_, ?_, ?_⟩
    · rw [hloop]
      exact hfull.2
    · rw [hall, List.length_map]
    · intro p hp hfar
      rw [hall]
      have hmem : firstProbeOutcome ssrc first p ∈
          (first :: rest).map (firstProbeOutcome ssrc first) :=
        List.mem_map_of_mem _ (List.mem_cons_of_mem _ hp)
      have hval : firstProbeOutcome ssrc first p =
          Outcome.SendFeedback (nackFor ssrc first.SequenceNumber) := by
        unfold firstProbeOutcome
        rw [if_neg (by omega)]
      rw [← hval]
      exact hmem

/-- C2 witness: the stream 1, 2, ..., 52 with every `WriteRTCP` succeeding;
the loop reads all 52 packets. -/
theorem C2_increasing_stream_single_target_witness :
    (packetLoop 7 (fun _ => true) 0 initialState
        ({ SequenceNumber := 1, Payload := [] } ::
          consecutive 2 (fun _ => []) 51)).outcomes =
      (({ SequenceNumber := 1, Payload := [] } :: consecutive 2 (fun _ => []) 51).map
        (firstProbeOutcome 7 { SequenceNumber := 1, Payload := [] })).take
        (packetLoop 7 (fun _ => true) 0 initialState
          ({ SequenceNumber := 1, Payload := [] } ::
            consecutive 2 (fun _ => []) 51)).outcomes.length ∧
    (∀ o ∈ (packetLoop 7 (fun _ => true) 0 initialState
        ({ SequenceNumber := 1, Payload := [] } ::
          consecutive 2 (fun _ => []) 51)).outcomes,
      o = Outcome.Continue ∨ o = Outcome.SendFeedback (nackFor 7 1)) ∧
    (packetLoop 7 (fun _ => true) 0 initialState
        ({ SequenceNumber := 1, Payload := [] } ::
          consecutive 2 (fun _ => []) 51)).log.length ≤ 1 ∧
    1 ≤ (packetLoop 7 (fun _ => true) 0 initialState
        ({ SequenceNumber := 1, Payload := [] } ::
          consecutive 2 (fun _ => []) 51)).outcomes.length ∧
    ((packetLoop 7 (fun _ => true) 0 initialState
        ({ SequenceNumber := 1, Payload := [] } ::
          consecutive 2 (fun _ => []) 51)).outcomes =
        ({ SequenceNumber := 1, Payload := [] } :: consecutive 2 (fun _ => []) 51).map
          (firstProbeOutcome 7 { SequenceNumber := 1, Payload := [] }) ∧
      (packetLoop 7 (fun _ => true) 0 initialState
        ({ SequenceNumber := 1, Payload := [] } ::
          consecutive 2 (fun _ => []) 51)).ended = LoopEnd.EndOfStream ∧
      (packetLoop 7 (fun _ => true) 0 initialState
        ({ SequenceNumber := 1, Payload := [] } ::
          consecutive 2 (fun _ => []) 51)).outcomes.length =
        ({ SequenceNumber := 1, Payload := [] } :: consecutive 2 (fun _ => []) 51).length ∧
      ∀ p ∈ consecutive 2 (fun _ => []) 51,
        ({ SequenceNumber := 1, Payload := [] } : Packet).SequenceNumber + 50 ≤
          p.SequenceNumber →
        Outcome.SendFeedback
            (nackFor 7 ({ SequenceNumber := 1, Payload := [] } : Packet).SequenceNumber) ∈
          (packetLoop 7 (fun _ => true) 0 initialState
        ({ SequenceNumber := 1, Payload := [] } ::
          consecutive 2 (fun _ => []) 51)).outcomes) :=
  (fun h => ⟨h.1, h.2.1, h.2.2.1, h.2.2.2.1, h.2.2.2.2 (fun _ _ => rfl)⟩)
    (C2_increasing_stream_single_target 7 (fun _ => true)
      { SequenceNumber := 1, Payload := [] } (consecutive 2 (fun _ => []) 51)
      (by decide) (by decide))

/-- C2 fails as stated: the stream 1, 2, ..., 52 has strictly increasing
sequence numbers, and the loop sends feedback twice (at the packets 51 and
52) although no retransmission was verified and no payload mismatch was
found. -/
theorem C2_counterexample :
    (∀ p ∈ consecutive 1 (fun _ => []) 52, p.wf) ∧
    StrictlyIncreasing (consecutive 1 (fun _ => []) 52) ∧
    (packetLoop 7 (fun _ => true) 0 initialState
      (consecutive 1 (fun _ => []) 52)).outcomes =
      List.replicate 50 Outcome.Continue ++
        [Outcome.SendFeedback (nackFor 7 1), Outcome.SendFeedback (nackFor 7 1)] ∧
    feedbackBeforeResolution (packetLoop 7 (fun _ => true) 0 initialState
      (consecutive 1 (fun _ => []) 52)).outcomes = 2 ∧
    ¬ feedbackBeforeResolution (packetLoop 7 (fun _ => true) 0 initialState
      (consecutive 1 (fun _ => []) 52)).outcomes ≤ 1 := by
  decide

/-! ## The payload check -/

/-- C3: an iteration ends in `IntegrityFailure` exactly when a probe is
pending, the packet carries the pending probe's sequence number, and the two
payloads differ; it then is not a `VerifiedRetransmission`, and
`largestGapRTXed`, `pktNacked` and `wasNacked` keep their values.  Payloads
that differ in one byte, or of which one is a proper beginning of the other,
differ. -/
theorem C3_integrity_failure_iff (ssrc : Nat) (st : ProbeState) (pkt : Packet) :
    ((observe ssrc st pkt).outcome = Outcome.IntegrityFailure ↔
      ∃ orig, st.pktNacked = some orig ∧
        orig.SequenceNumber = pkt.SequenceNumber ∧ orig.Payload ≠ pkt.Payload) ∧
    ((observe ssrc st pkt).outcome = Outcome.IntegrityFailure →
      (observe ssrc st pkt).outcome ≠ Outcome.VerifiedRetransmission ∧
      (observe ssrc st pkt).state.largestGapRTXed = st.largestGapRTXed ∧
      (observe ssrc st pkt).state.pktNacked = st.pktNacked ∧
      (observe ssrc st pkt).state.wasNacked = st.wasNacked) ∧
    (∀ (orig : Packet) (a b : List Nat) (x y : Nat),
      st.pktNacked = some orig → orig.SequenceNumber = pkt.SequenceNumber →
      orig.Payload = a ++ x :: b → pkt.Payload = a ++ y :: b → x ≠ y →
      (observe ssrc st pkt).outcome = Outcome.IntegrityFailure) ∧
    (∀ (orig : Packet) (a : List Nat) (x : Nat) (b : List Nat),
      st.pktNacked = some orig → orig.SequenceNumber = pkt.SequenceNumber →
      (orig.Payload = a ∧ pkt.Payload = a ++ x :: b ∨
        orig.Payload = a ++ x :: b ∧ pkt.Payload = a) →
      (observe ssrc st pkt).outcome = Outcome.IntegrityFailure) := by
  have hiff := observe_integrityFailure_iff ssrc st pkt
  refine ⟨hiff, ?_, ?_, ?_⟩
  · intro h
    obtain ⟨orig, hp, hs, hb⟩ := hiff.1 h
    rw [observe_mismatch ssrc st pkt orig hp hs hb]
    exact ⟨by simp, rfl, rfl, rfl⟩
  · intro orig a b x y hp hs ho hk hxy
    apply hiff.2
    refine ⟨orig, hp, hs, ?_⟩
    rw [ho, hk]
    intro e
    have := List.append_cancel_left e
    simp at this
    exact hxy this
  · intro orig a x b hp hs hcase
    apply hiff.2
    refine ⟨orig, hp, hs, ?_⟩
    rcases hcase with ⟨h1, h2⟩ | ⟨h1, h2⟩
    · rw [h1, h2]
      intro e
      have := congrArg List.length e
      simp at this
    · rw [h1, h2]
      intro e
      have := congrArg List.length e
      simp at this

/-! ## The verified retransmission -/

/-- C4: when a probe is pending and the packet carries its sequence number and
a byte-identical payload, the iteration is a `VerifiedRetransmission`:
`pktNacked` becomes `nil`, `wasNacked` keeps its value, `largestGapRTXed` grows
by `windowSize` (in `uint16`) and `WriteRTCP` is not called.  From the initial
state, the packets 1 to 51 followed by a packet with sequence number 1 and the
payload of the first packet leave `largestGapRTXed = 50` (the NACK written at
packet 51 having succeeded). -/
theorem C4_verified_retransmission (ssrc : Nat) (st : ProbeState) (pkt orig : Packet)
    (w : Nat → Bool) (payload : Nat → List Nat)
    (hp : st.pktNacked = some orig)
    (hs : orig.SequenceNumber = pkt.SequenceNumber)
    (hb : orig.Payload = pkt.Payload)
    (hw : w 50 = true) :
    ((observe ssrc st pkt).outcome = Outcome.VerifiedRetransmission ∧
      (observe ssrc st pkt).state.pktNacked = none ∧
      (observe ssrc st pkt).state.wasNacked = st.wasNacked ∧
      (observe ssrc st pkt).state.largestGapRTXed =
        (st.largestGapRTXed + windowSize) % 65536 ∧
      (observe ssrc st pkt).outcome.isFeedback = false) ∧
    packetLoop ssrc w 0 initialState
        (consecutive 1 payload 51 ++ [{ SequenceNumber := 1, Payload := payload 0 }]) =
      { outcomes := List.replicate 50 Outcome.Continue ++
          [Outcome.SendFeedback (nackFor ssrc 1), Outcome.VerifiedRetransmission],
        state := { totalSeen := 52, largestGapRTXed := 50, pktNacked := none,
                   wasNacked := [1] },
        log := [LogLine.sendingNack 1 50, LogLine.correctlyRTXed 1],
        ended := LoopEnd.EndOfStream } := by
  constructor
  · rw [observe_verified ssrc st pkt orig hp hs hb]
    exact ⟨rfl, rfl, rfl, rfl, rfl⟩
  · have h51 := packetLoop_consecutive_51 ssrc w 1 payload (by omega)
    rw [hw] at h51
    rw [packetLoop_append ssrc w _ 0 _ _ (by rw [h51]; rfl), h51, consecutive_length]
    simp only [packetLoop_cons, packetLoop_nil]
    rw [observe_verified ssrc (firstProbeState 51 { SequenceNumber := 1, Payload := payload 0 })
      { SequenceNumber := 1, Payload := payload 0 }
      { SequenceNumber := 1, Payload := payload 0 } rfl rfl rfl]
    simp [loopContinues, LoopResult.after, firstProbeState, windowSize]

/-- C4 witness: the packet 1 retransmitted after the packets 1 to 51. -/
theorem C4_verified_retransmission_witness :
    ((observe 7 stateAfter51 { SequenceNumber := 1, Payload := [] }).outcome =
        Outcome.VerifiedRetransmission ∧
      (observe 7 stateAfter51 { SequenceNumber := 1, Payload := [] }).state.pktNacked = none ∧
      (observe 7 stateAfter51 { SequenceNumber := 1, Payload := [] }).state.wasNacked =
        stateAfter51.wasNacked ∧
      (observe 7 stateAfter51 { SequenceNumber := 1, Payload := [] }).state.largestGapRTXed =
        (stateAfter51.largestGapRTXed + windowSize) % 65536 ∧
      (observe 7 stateAfter51
        { SequenceNumber := 1, Payload := [] }).outcome.isFeedback = false) ∧
    packetLoop 7 (fun _ => true) 0 initialState
        (consecutive 1 (fun i => [i % 256]) 51 ++
          [{ SequenceNumber := 1, Payload := (fun i => [i % 256]) 0 }]) =
      { outcomes := List.replicate 50 Outcome.Continue ++
          [Outcome.SendFeedback (nackFor 7 1), Outcome.VerifiedRetransmission],
        state := { totalSeen := 52, largestGapRTXed := 50, pktNacked := none,
                   wasNacked := [1] },
        log := [LogLine.sendingNack 1 50, LogLine.correctlyRTXed 1],
        ended := LoopEnd.EndOfStream } :=
  C4_verified_retransmission 7 stateAfter51 { SequenceNumber := 1, Payload := [] }
    { SequenceNumber := 1, Payload := [] } (fun _ => true) (fun i => [i % 256])
    (by decide) rfl rfl rfl

/-! ## The required distance after a verified retransmission -/

/-- C5, as the code behaves: after an iteration that is a
`VerifiedRetransmission`, the required distance `nackDistance` is the previous
one plus `windowSize` in `uint16` arithmetic, that is modulo 65536; it
exceeds the previous one, by exactly `windowSize`, whenever the previous one
is at most 65485. -/
theorem C5_required_distance_after_verified (ssrc : Nat) (st : ProbeState) (pkt : Packet)
    (hv : (observe ssrc st pkt).outcome = Outcome.VerifiedRetransmission) :
    nackDistance (observe ssrc st pkt).state = (nackDistance st + windowSize) % 65536 ∧
    (nackDistance st ≤ 65485 →
      nackDistance (observe ssrc st pkt).state = nackDistance st + windowSize ∧
      nackDistance st < nackDistance (observe ssrc st pkt).state) := by
  have hs : (observe ssrc st pkt).state.largestGapRTXed =
      (st.largestGapRTXed + windowSize) % 65536 := by
    rcases observe_cases ssrc st pkt with
      ⟨_, _, _, _, _, hst⟩ | ⟨_, _, _, _, ho, _⟩ | ⟨_, _, ho, _⟩ | ⟨_, _, _, ho⟩
    · rw [hst]
    · rw [ho] at hv; cases hv
    · rw [ho] at hv; cases hv
    · rw [ho] at hv
      split_ifs at hv
  unfold nackDistance
  rw [hs]
  unfold windowSize
  constructor
  · omega
  · intro h
    omega

/-- C5 witness: the retransmission of packet 1 after the packets 1 to 51. -/
theorem C5_required_distance_after_verified_witness :
    nackDistance (observe 7 stateAfter51 { SequenceNumber := 1, Payload := [] }).state =
      (nackDistance stateAfter51 + windowSize) % 65536 ∧
    (nackDistance stateAfter51 ≤ 65485 →
      nackDistance (observe 7 stateAfter51 { SequenceNumber := 1, Payload := [] }).state =
        nackDistance stateAfter51 + windowSize ∧
      nackDistance stateAfter51 <
        nackDistance (observe 7 stateAfter51 { SequenceNumber := 1, Payload := [] }).state) :=
  C5_required_distance_after_verified 7 stateAfter51
    { SequenceNumber := 1, Payload := [] } (by decide)

/-- C5 fails as stated: after 1309 rounds of duplicate delivery (the stream
`0, 0, 1, 1, ..., 1308, 1308`) and the packet 1309, which becomes the probe,
`largestGapRTXed` is 65450 and the required distance is 65500.  The packet
1309 delivered again is a `VerifiedRetransmission`; `largestGapRTXed` becomes
65500 and the required distance `50 + 65500` wraps to 14, which is smaller. -/
theorem C5_counterexample :
    Reachable 7 (stateProbingAfterRounds 1309) ∧
    (packetLoop 7 (fun _ => true) 0 initialState (duplicatePairs 1309)).state =
      stateAfterRounds 1309 ∧
    (observe 7 (stateAfterRounds 1309) { SequenceNumber := 1309, Payload := [] }).state =
      stateProbingAfterRounds 1309 ∧
    Packet.wf { SequenceNumber := 1309, Payload := [] } ∧
    (observe 7 (stateProbingAfterRounds 1309)
      { SequenceNumber := 1309, Payload := [] }).outcome = Outcome.VerifiedRetransmission ∧
    nackDistance (stateProbingAfterRounds 1309) = 65500 ∧
    nackDistance (observe 7 (stateProbingAfterRounds 1309)
      { SequenceNumber := 1309, Payload := [] }).state = 14 ∧
    ¬ (nackDistance (stateProbingAfterRounds 1309) <
      nackDistance (observe 7 (stateProbingAfterRounds 1309)
        { SequenceNumber := 1309, Payload := [] }).state) := by
  have hv := observe_rounds_verify 7 1309
  refine ⟨reachable_probing_of_rounds 7 1309 (by omega) (reachable_rounds 7 1309 (by omega)),
    (packetLoop_duplicatePairs 7 1309).2, (observe_rounds_adopt 7 1309).2, by decide, ?_, rfl,
    ?_, ?_⟩
  · rw [hv]
  · rw [hv]; rfl
  · rw [hv]
    have h1 : nackDistance (stateProbingAfterRounds 1309) = 65500 := rfl
    have h2 : nackDistance (stateAfterRounds (1309 + 1)) = 14 := rfl
    rw [h1, h2]
    omega

/-! ## The tried sequence numbers -/

/-- C6: in every state reachable from the initial state, and so in the state
the loop leaves at the end of any stream, `wasNacked` holds no sequence number
twice and holds the sequence number of the pending probe.  An iteration makes
a packet `q` the pending probe only when no probe was pending, `q` is the
packet just read and its sequence number was not in `wasNacked`; the
iteration appends that sequence number to `wasNacked`.  `wasNacked` changes in
no other way. -/
theorem C6_tried_sequence_numbers (ssrc : Nat) (st : ProbeState)
    (h : Reachable ssrc st) :
    st.wasNacked.Nodup ∧
    (∀ n, st.pktNacked = some n → n.SequenceNumber ∈ st.wasNacked) ∧
    (∀ n, st.pktNacked = some n → st.wasNacked.count n.SequenceNumber = 1) ∧
    (∀ pkt q, (observe ssrc st pkt).state.pktNacked = some q → st.pktNacked ≠ some q →
      q = pkt ∧ st.pktNacked = none ∧ pkt.SequenceNumber ∉ st.wasNacked ∧
      (observe ssrc st pkt).state.wasNacked = st.wasNacked ++ [pkt.SequenceNumber]) ∧
    (∀ pkt, (observe ssrc st pkt).state.wasNacked ≠ st.wasNacked →
      st.pktNacked = none ∧ pkt.SequenceNumber ∉ st.wasNacked ∧
      (observe ssrc st pkt).state.pktNacked = some pkt ∧
      (observe ssrc st pkt).state.wasNacked = st.wasNacked ++ [pkt.SequenceNumber]) ∧
    (∀ (w : Nat → Bool) (pkts : List Packet), (∀ p ∈ pkts, p.wf) →
      (packetLoop ssrc w 0 st pkts).ended = LoopEnd.EndOfStream →
      (packetLoop ssrc w 0 st pkts).state.wasNacked.Nodup ∧
      ∀ n, (packetLoop ssrc w 0 st pkts).state.pktNacked = some n →
        n.SequenceNumber ∈ (packetLoop ssrc w 0 st pkts).state.wasNacked) := by
  have hinv := reachable_invariant ssrc st h
  refine ⟨hinv.1, hinv.2, ?_, ?_, ?_, ?_⟩
  · intro n hn
    exact List.count_eq_one_of_mem hinv.1 (hinv.2 n hn)
  · intro pkt q hq hne
    rcases observe_probe_change ssrc st pkt with ⟨_, hp | hp⟩ | ⟨hnone, ht, hp, hw⟩
    · rw [hp] at hq; exact absurd hq hne
    · rw [hp] at hq; cases hq
    · rw [hp] at hq
      have e : pkt = q := by simpa using hq
      exact ⟨e.symm, hnone, ht, hw⟩
  · intro pkt hch
    rcases observe_probe_change ssrc st pkt with ⟨hw, _⟩ | hadopt
    · exact absurd hw hch
    · exact hadopt
  · intro w pkts hwf hend
    exact reachable_invariant ssrc _ (reachable_packetLoop ssrc w pkts 0 st h hwf hend)

/-- C6 witness: the initial state. -/
theorem C6_tried_sequence_numbers_witness :
    initialState.wasNacked.Nodup ∧
    (∀ n, initialState.pktNacked = some n → n.SequenceNumber ∈ initialState.wasNacked) ∧
    (∀ n, initialState.pktNacked = some n →
      initialState.wasNacked.count n.SequenceNumber = 1) ∧
    (∀ pkt q, (observe 7 initialState pkt).state.pktNacked = some q →
      initialState.pktNacked ≠ some q →
      q = pkt ∧ initialState.pktNacked = none ∧
      pkt.SequenceNumber ∉ initialState.wasNacked ∧
      (observe 7 initialState pkt).state.wasNacked =
        initialState.wasNacked ++ [pkt.SequenceNumber]) ∧
    (∀ pkt, (observe 7 initialState pkt).state.wasNacked ≠ initialState.wasNacked →
      initialState.pktNacked = none ∧ pkt.SequenceNumber ∉ initialState.wasNacked ∧
      (observe 7 initialState pkt).state.pktNacked = some pkt ∧
      (observe 7 initialState pkt).state.wasNacked =
        initialState.wasNacked ++ [pkt.SequenceNumber]) ∧
    (∀ (w : Nat → Bool) (pkts : List Packet), (∀ p ∈ pkts, p.wf) →
      (packetLoop 7 w 0 initialState pkts).ended = LoopEnd.EndOfStream →
      (packetLoop 7 w 0 initialState pkts).state.wasNacked.Nodup ∧
      ∀ n, (packetLoop 7 w 0 initialState pkts).state.pktNacked = some n →
        n.SequenceNumber ∈ (packetLoop 7 w 0 initialState pkts).state.wasNacked) :=
  C6_tried_sequence_numbers 7 initialState Reachable.init

/-! ## Feedback at the boundary -/

/-- C7, as the code behaves: when a packet neither matches the pending probe
nor was tried before and its distance to the probe in flight equals
`nackDistance`, the iteration calls `WriteRTCP` with one NACK whose two source
ids are the stream's and whose sequence numbers are the one-element list of
the probe's sequence number, and prints the line of line 87.
`largestGapRTXed` keeps its value.  When a probe was pending, `pktNacked` and
`wasNacked` keep their values too.  When none was pending, which can only be
while `nackDistance` is 0, the packet itself is the probe: it is stored in
`pktNacked`, its sequence number is appended to `wasNacked`, and it is the
one the NACK names. -/
theorem C7_feedback_at_boundary (ssrc : Nat) (st : ProbeState) (pkt nacked : Packet)
    (hm : matchesPending st pkt = false)
    (ht : pkt.SequenceNumber ∉ st.wasNacked)
    (hp : (startProbe st pkt).pktNacked = some nacked)
    (hd : currentDistance pkt nacked = nackDistance st) :
    (observe ssrc st pkt).outcome =
      Outcome.SendFeedback
        { SenderSSRC := ssrc, MediaSSRC := ssrc, Nacks := [nacked.SequenceNumber] } ∧
    (observe ssrc st pkt).log =
      [LogLine.sendingNack nacked.SequenceNumber (nackDistance st)] ∧
    (observe ssrc st pkt).state.largestGapRTXed = st.largestGapRTXed ∧
    (observe ssrc st pkt).state.pktNacked = some nacked ∧
    (st.pktNacked ≠ none →
      (observe ssrc st pkt).state.pktNacked = st.pktNacked ∧
      (observe ssrc st pkt).state.wasNacked = st.wasNacked) ∧
    (st.pktNacked = none →
      nacked = pkt ∧ nackDistance st = 0 ∧
      (observe ssrc st pkt).state.wasNacked = st.wasNacked ++ [pkt.SequenceNumber]) := by
  have hp1 : (startProbe (countPacket st) pkt).pktNacked = some nacked := by
    rw [startProbe_pktNacked] at hp ⊢
    exact hp
  have hn : nackDistance (startProbe (countPacket st) pkt) = nackDistance st := by
    unfold startProbe
    cases h : (countPacket st).pktNacked <;> rfl
  have hobs : observe ssrc st pkt =
      { outcome := Outcome.SendFeedback
          { SenderSSRC := ssrc, MediaSSRC := ssrc, Nacks := [nacked.SequenceNumber] },
        state := startProbe (countPacket st) pkt,
        log := [LogLine.sendingNack nacked.SequenceNumber (nackDistance st)] } := by
    rw [observe_fresh ssrc st pkt hm ht, distanceStep_some ssrc _ pkt nacked hp1, hn,
      if_neg (by omega), if_pos hd, hd]
  rw [hobs]
  refine ⟨rfl, rfl, ?_, hp1, ?_, ?_⟩
  · show (startProbe (countPacket st) pkt).largestGapRTXed = st.largestGapRTXed
    unfold startProbe
    cases h : (countPacket st).pktNacked <;> rfl
  · intro hsome
    cases h : st.pktNacked with
    | none => exact absurd h hsome
    | some n =>
      have h1 : (countPacket st).pktNacked = some n := h
      show (startProbe (countPacket st) pkt).pktNacked = some n ∧
        (startProbe (countPacket st) pkt).wasNacked = st.wasNacked
      rw [startProbe_some _ pkt n h1]
      exact ⟨h1, rfl⟩
  · intro hnone
    have h1 : (countPacket st).pktNacked = none := hnone
    rw [startProbe_none st pkt hnone] at hp
    have e : pkt = nacked := by simpa using hp
    subst e
    rw [currentDistance_self] at hd
    refine ⟨rfl, hd.symm, ?_⟩
    show (startProbe (countPacket st) pkt).wasNacked = st.wasNacked ++ [pkt.SequenceNumber]
    rw [startProbe_none _ pkt h1]
    rfl

/-- C7 witness: the packet 51 while the probe for sequence number 1 is
pending. -/
theorem C7_feedback_at_boundary_witness :
    (observe 7 (firstProbeState 50 { SequenceNumber := 1, Payload := [] })
        { SequenceNumber := 51, Payload := [9] }).outcome =
      Outcome.SendFeedback { SenderSSRC := 7, MediaSSRC := 7, Nacks := [1] } ∧
    (observe 7 (firstProbeState 50 { SequenceNumber := 1, Payload := [] })
        { SequenceNumber := 51, Payload := [9] }).log =
      [LogLine.sendingNack 1
        (nackDistance (firstProbeState 50 { SequenceNumber := 1, Payload := [] }))] ∧
    (observe 7 (firstProbeState 50 { SequenceNumber := 1, Payload := [] })
        { SequenceNumber := 51, Payload := [9] }).state.largestGapRTXed =
      (firstProbeState 50 { SequenceNumber := 1, Payload := [] }).largestGapRTXed ∧
    (observe 7 (firstProbeState 50 { SequenceNumber := 1, Payload := [] })
        { SequenceNumber := 51, Payload := [9] }).state.pktNacked =
      some { SequenceNumber := 1, Payload := [] } ∧
    ((firstProbeState 50 { SequenceNumber := 1, Payload := [] }).pktNacked ≠ none →
      (observe 7 (firstProbeState 50 { SequenceNumber := 1, Payload := [] })
          { SequenceNumber := 51, Payload := [9] }).state.pktNacked =
        (firstProbeState 50 { SequenceNumber := 1, Payload := [] }).pktNacked ∧
      (observe 7 (firstProbeState 50 { SequenceNumber := 1, Payload := [] })
          { SequenceNumber := 51, Payload := [9] }).state.wasNacked =
        (firstProbeState 50 { SequenceNumber := 1, Payload := [] }).wasNacked) ∧
    ((firstProbeState 50 { SequenceNumber := 1, Payload := [] }).pktNacked = none →
      ({ SequenceNumber := 1, Payload := [] } : Packet) =
        { SequenceNumber := 51, Payload := [9] } ∧
      nackDistance (firstProbeState 50 { SequenceNumber := 1, Payload := [] }) = 0 ∧
      (observe 7 (firstProbeState 50 { SequenceNumber := 1, Payload := [] })
          { SequenceNumber := 51, Payload := [9] }).state.wasNacked =
        (firstProbeState 50 { SequenceNumber := 1, Payload := [] }).wasNacked ++
          [({ SequenceNumber := 51, Payload := [9] } : Packet).SequenceNumber]) :=
  C7_feedback_at_boundary 7 (firstProbeState 50 { SequenceNumber := 1, Payload := [] })
    { SequenceNumber := 51, Payload := [9] } { SequenceNumber := 1, Payload := [] }
    (by decide) (by decide) (by decide) (by decide)

/-- C7 fails as stated: after 32767 rounds of duplicate delivery (the stream
`0, 0, 1, 1, ..., 32766, 32766`) no probe is pending and `largestGapRTXed` is
`50 * 32767 mod 65536 = 65486`, so the required distance `50 + 65486` wraps
to 0.  The packet 40000 matches no probe and was not tried; it is adopted, its
distance to itself is 0, equal to the required distance, and the NACK is sent
for the packet itself: `pktNacked` and `wasNacked` do not keep their values. -/
theorem C7_counterexample :
    Reachable 7 (stateAfterRounds 32767) ∧
    (packetLoop 7 (fun _ => true) 0 initialState (duplicatePairs 32767)).state =
      stateAfterRounds 32767 ∧
    (stateAfterRounds 32767).largestGapRTXed = 65486 ∧
    (stateAfterRounds 32767).pktNacked = none ∧
    Packet.wf { SequenceNumber := 40000, Payload := [] } ∧
    matchesPending (stateAfterRounds 32767) { SequenceNumber := 40000, Payload := [] } = false ∧
    40000 ∉ (stateAfterRounds 32767).wasNacked ∧
    (startProbe (stateAfterRounds 32767) { SequenceNumber := 40000, Payload := [] }).pktNacked =
      some { SequenceNumber := 40000, Payload := [] } ∧
    currentDistance { SequenceNumber := 40000, Payload := [] }
        { SequenceNumber := 40000, Payload := [] } =
      nackDistance (stateAfterRounds 32767) ∧
    (observe 7 (stateAfterRounds 32767) { SequenceNumber := 40000, Payload := [] }).outcome =
      Outcome.SendFeedback { SenderSSRC := 7, MediaSSRC := 7, Nacks := [40000] } ∧
    (observe 7 (stateAfterRounds 32767)
        { SequenceNumber := 40000, Payload := [] }).state.pktNacked ≠
      (stateAfterRounds 32767).pktNacked ∧
    (observe 7 (stateAfterRounds 32767)
        { SequenceNumber := 40000, Payload := [] }).state.wasNacked ≠
      (stateAfterRounds 32767).wasNacked := by
  have ht : ({ SequenceNumber := 40000, Payload := [] } : Packet).SequenceNumber ∉
      (stateAfterRounds 32767).wasNacked := by
    simp [stateAfterRounds]
  have hn : nackDistance (stateAfterRounds 32767) = 0 := rfl
  have hobs := observe_adopt 7 (stateAfterRounds 32767)
    { SequenceNumber := 40000, Payload := [] } rfl ht
  rw [hn, if_neg (by omega)] at hobs
  refine ⟨reachable_rounds 7 32767 (by omega), (packetLoop_duplicatePairs 7 32767).2, rfl, rfl,
    by decide, rfl, ht, rfl, ?_, ?_, ?_, ?_⟩
  · rw [currentDistance_self, hn]
  · rw [hobs]; rfl
  · rw [hobs]
    show some _ ≠ none
    simp
  · rw [hobs]
    intro e
    have hl := congrArg List.length e
    rw [List.length_append, List.length_singleton] at hl
    omega

/-! ## Scenarios A and B, at every start -/

/-- C8: for every 16-bit start `s` and every choice of payloads, the loop fed
from the initial state with the packets `s, s+1, ...` (modulo 65536) ends
each of the first 50 iterations in `Continue`, whatever the length `n ≤ 50`
of the stream, and on the stream of 51 packets the 51st iteration is the only
one to send feedback: one NACK, for `s`. -/
theorem C8_consecutive_stream (ssrc : Nat) (w : Nat → Bool) (s : Nat)
    (payload : Nat → List Nat) (hs : s < 65536) :
    (∀ n, n ≤ 50 →
      (packetLoop ssrc w 0 initialState (consecutive s payload n)).outcomes =
        List.replicate n Outcome.Continue) ∧
    (packetLoop ssrc w 0 initialState (consecutive s payload 51)).outcomes =
      List.replicate 50 Outcome.Continue ++
        [Outcome.SendFeedback
          { SenderSSRC := ssrc, MediaSSRC := ssrc, Nacks := [s] }] ∧
    feedbackBeforeResolution
      (packetLoop ssrc w 0 initialState (consecutive s payload 51)).outcomes = 1 := by
  have h51 := packetLoop_consecutive_51 ssrc w s payload hs
  refine ⟨?_, ?_, ?_⟩
  · intro n hn
    cases n with
    | zero => rfl
    | succ m => rw [packetLoop_consecutive ssrc w s payload hs m hn]
  · rw [h51]
    rfl
  · rw [h51]
    exact feedbackBeforeResolution_replicate (nackFor ssrc s) 50

/-- C8 witness: the stream that starts at 65530 and wraps to 0. -/
theorem C8_consecutive_stream_witness :
    (∀ n, n ≤ 50 →
      (packetLoop 7 (fun _ => true) 0 initialState
        (consecutive 65530 (fun i => [i % 256]) n)).outcomes =
        List.replicate n Outcome.Continue) ∧
    (packetLoop 7 (fun _ => true) 0 initialState
      (consecutive 65530 (fun i => [i % 256]) 51)).outcomes =
      List.replicate 50 Outcome.Continue ++
        [Outcome.SendFeedback
          { SenderSSRC := 7, MediaSSRC := 7, Nacks := [65530] }] ∧
    feedbackBeforeResolution
      (packetLoop 7 (fun _ => true) 0 initialState
        (consecutive 65530 (fun i => [i % 256]) 51)).outcomes = 1 :=
  C8_consecutive_stream 7 (fun _ => true) 65530 (fun i => [i % 256]) (by decide)

/-! ## The distance at which feedback is sent -/

/-- C9, as the code behaves: whenever an iteration sends feedback, the NACK
names the probe in flight and the packet is at least `nackDistance`, that is
`(windowSize + largestGapRTXed) mod 65536`, ahead of it in `uint16`
distance; this is at least `windowSize` as long as `largestGapRTXed` is at
most 65485, so that the sum does not wrap. -/
theorem C9_feedback_distance (ssrc : Nat) (st : ProbeState) (pkt : Packet)
    (nack : TransportLayerNack)
    (hf : (observe ssrc st pkt).outcome = Outcome.SendFeedback nack) :
    ∃ nacked, (observe ssrc st pkt).state.pktNacked = some nacked ∧
      nack = { SenderSSRC := ssrc, MediaSSRC := ssrc, Nacks := [nacked.SequenceNumber] } ∧
      nackDistance st ≤ currentDistance pkt nacked ∧
      (st.largestGapRTXed ≤ 65485 → windowSize ≤ currentDistance pkt nacked) := by
  rcases observe_cases ssrc st pkt with
    ⟨_, _, _, _, ho, _⟩ | ⟨_, _, _, _, ho, _⟩ | ⟨_, _, ho, _⟩ | ⟨_, _, hst, ho⟩
  · rw [ho] at hf; cases hf
  · rw [ho] at hf; cases hf
  · rw [ho] at hf; cases hf
  · rw [ho] at hf
    by_cases c : currentDistance pkt (st.pktNacked.getD pkt) < nackDistance st
    · rw [if_pos c] at hf; cases hf
    · rw [if_neg c] at hf
      refine ⟨st.pktNacked.getD pkt, ?_, ?_, by omega, ?_⟩
      · rw [hst]
        exact startProbe_pktNacked (countPacket st) pkt
      · injection hf with hf
        exact hf.symm
      · intro hg
        have : nackDistance st = windowSize + st.largestGapRTXed := by
          unfold nackDistance windowSize
          omega
        omega

/-- C9 witness: the packet 60 while the probe for sequence number 1 is
pending. -/
theorem C9_feedback_distance_witness :
    ∃ nacked,
      (observe 7 (firstProbeState 59 { SequenceNumber := 1, Payload := [] })
        { SequenceNumber := 60, Payload := [] }).state.pktNacked = some nacked ∧
      nackFor 7 1 =
        { SenderSSRC := 7, MediaSSRC := 7, Nacks := [nacked.SequenceNumber] } ∧
      nackDistance (firstProbeState 59 { SequenceNumber := 1, Payload := [] }) ≤
        currentDistance { SequenceNumber := 60, Payload := [] } nacked ∧
      ((firstProbeState 59 { SequenceNumber := 1, Payload := [] }).largestGapRTXed ≤ 65485 →
        windowSize ≤ currentDistance { SequenceNumber := 60, Payload := [] } nacked) :=
  C9_feedback_distance 7 (firstProbeState 59 { SequenceNumber := 1, Payload := [] })
    { SequenceNumber := 60, Payload := [] } (nackFor 7 1) (by decide)

/-- C9 fails as stated: after 1310 rounds of duplicate delivery (the stream
`0, 0, 1, 1, ..., 1309, 1309`) and the packet 1310, which becomes the probe,
`largestGapRTXed` is 65500 and the required distance `50 + 65500` wraps to
14.  The packet 1324 is 14 sequence numbers ahead of the probe, fewer than
`windowSize`, and the iteration sends the NACK for 1310. -/
theorem C9_counterexample :
    Reachable 7 (stateProbingAfterRounds 1310) ∧
    (packetLoop 7 (fun _ => true) 0 initialState (duplicatePairs 1310)).state =
      stateAfterRounds 1310 ∧
    (observe 7 (stateAfterRounds 1310) { SequenceNumber := 1310, Payload := [] }).state =
      stateProbingAfterRounds 1310 ∧
    (stateProbingAfterRounds 1310).largestGapRTXed = 65500 ∧
    (stateProbingAfterRounds 1310).pktNacked = some { SequenceNumber := 1310, Payload := [] } ∧
    Packet.wf { SequenceNumber := 1324, Payload := [] } ∧
    (observe 7 (stateProbingAfterRounds 1310)
      { SequenceNumber := 1324, Payload := [] }).outcome =
      Outcome.SendFeedback { SenderSSRC := 7, MediaSSRC := 7, Nacks := [1310] } ∧
    currentDistance { SequenceNumber := 1324, Payload := [] }
      { SequenceNumber := 1310, Payload := [] } = 14 ∧
    ¬ windowSize ≤ currentDistance { SequenceNumber := 1324, Payload := [] }
      { SequenceNumber := 1310, Payload := [] } := by
  have ht : ({ SequenceNumber := 1324, Payload := [] } : Packet).SequenceNumber ∉
      (stateProbingAfterRounds 1310).wasNacked := by
    simp [stateProbingAfterRounds]
  have hne : ({ SequenceNumber := 1310, Payload := [] } : Packet).SequenceNumber ≠
      ({ SequenceNumber := 1324, Payload := [] } : Packet).SequenceNumber := by decide
  have hn : nackDistance (stateProbingAfterRounds 1310) = 14 := rfl
  have hd : currentDistance { SequenceNumber := 1324, Payload := [] }
      { SequenceNumber := 1310, Payload := [] } = 14 := rfl
  have hobs := observe_pending 7 (stateProbingAfterRounds 1310)
    { SequenceNumber := 1324, Payload := [] } { SequenceNumber := 1310, Payload := [] }
    rfl hne ht
  rw [hn, hd, if_neg (by omega), if_pos rfl] at hobs
  refine ⟨reachable_probing_of_rounds 7 1310 (by omega) (reachable_rounds 7 1310 (by omega)),
    (packetLoop_duplicatePairs 7 1310).2, (observe_rounds_adopt 7 1310).2, rfl, rfl,
    by decide, ?_, hd, ?_⟩
  · rw [hobs]; rfl
  · rw [hd]; decide

/-! ## Duplicate delivery -/

/-- C10: two packets with the same sequence number `s`, fed from the initial
state.  The first becomes the probe; the second takes the match path against
it: the iteration is a `VerifiedRetransmission` when the payloads are equal
and an `IntegrityFailure` when they differ.  No second probe is started:
`wasNacked` is `[s]`, so it holds `s` once. -/
theorem C10_duplicate_delivery (ssrc : Nat) (w : Nat → Bool) (s : Nat)
    (p q : List Nat) :
    (packetLoop ssrc w 0 initialState
        [{ SequenceNumber := s, Payload := p }, { SequenceNumber := s, Payload := q }]).outcomes =
      [Outcome.Continue,
        if p = q then Outcome.VerifiedRetransmission else Outcome.IntegrityFailure] ∧
    (packetLoop ssrc w 0 initialState
        [{ SequenceNumber := s, Payload := p },
          { SequenceNumber := s, Payload := q }]).state.wasNacked = [s] ∧
    (packetLoop ssrc w 0 initialState
        [{ SequenceNumber := s, Payload := p },
          { SequenceNumber := s, Payload := q }]).state.wasNacked.count s = 1 ∧
    (packetLoop ssrc w 0 initialState
        [{ SequenceNumber := s, Payload := p },
          { SequenceNumber := s, Payload := q }]).state.pktNacked =
      (if p = q then none else some { SequenceNumber := s, Payload := p }) ∧
    (packetLoop ssrc w 0 initialState
        [{ SequenceNumber := s, Payload := p },
          { SequenceNumber := s, Payload := q }]).ended =
      (if p = q then LoopEnd.EndOfStream else LoopEnd.Panicked) := by
  simp only [packetLoop_cons, packetLoop_nil, observe_initial]
  by_cases e : p = q
  · rw [observe_verified ssrc (firstProbeState 1 { SequenceNumber := s, Payload := p })
      { SequenceNumber := s, Payload := q } { SequenceNumber := s, Payload := p } rfl rfl e]
    simp [loopContinues, LoopResult.after, firstProbeState, e]
  · rw [observe_mismatch ssrc (firstProbeState 1 { SequenceNumber := s, Payload := p })
      { SequenceNumber := s, Payload := q } { SequenceNumber := s, Payload := p } rfl rfl e]
    simp [loopContinues, LoopResult.after, LoopResult.panicked, firstProbeState, countPacket, e]

/-! ## What precedes a verified retransmission -/

/-- C11, as the code behaves: when the loop, fed from the initial state, has
read the stream `pre` and the next iteration is a `VerifiedRetransmission`
for the packet `pkt`, then `pre` holds an earlier packet `orig` with the
sequence number and the payload of `pkt` that was adopted as the probe when it
was read (no probe was pending and its sequence number had not been tried)
and is the pending probe now.  Whether a NACK for it was sent in between
plays no part. -/
theorem C11_verified_follows_adoption (ssrc : Nat) (w : Nat → Bool)
    (pre : List Packet) (pkt : Packet)
    (hend : (packetLoop ssrc w 0 initialState pre).ended = LoopEnd.EndOfStream)
    (hv : (observe ssrc (packetLoop ssrc w 0 initialState pre).state pkt).outcome =
      Outcome.VerifiedRetransmission) :
    ∃ a orig b, pre = a ++ orig :: b ∧
      orig.SequenceNumber = pkt.SequenceNumber ∧ orig.Payload = pkt.Payload ∧
      (packetLoop ssrc w 0 initialState a).ended = LoopEnd.EndOfStream ∧
      (packetLoop ssrc w 0 initialState a).state.pktNacked = none ∧
      orig.SequenceNumber ∉ (packetLoop ssrc w 0 initialState a).state.wasNacked ∧
      (packetLoop ssrc w 0 initialState pre).state.pktNacked = some orig := by
  rcases observe_cases ssrc (packetLoop ssrc w 0 initialState pre).state pkt with
    ⟨orig, hp, hs, hb, _, _⟩ | ⟨_, _, _, _, ho, _⟩ | ⟨_, _, ho, _⟩ | ⟨_, _, _, ho⟩
  · rcases packetLoop_pending_origin ssrc w orig pre 0 initialState hend hp with
      h0 | ⟨a, b, hab, ha1, ha2, ha3⟩
    · cases h0
    · exact ⟨a, orig, b, hab, hs, hb, ha1, ha2, ha3, hp⟩
  · rw [ho] at hv; cases hv
  · rw [ho] at hv; cases hv
  · rw [ho] at hv
    split_ifs at hv

/-- C11 witness: the packet 1 retransmitted after the packets 1 to 51. -/
theorem C11_verified_follows_adoption_witness :
    ∃ a orig b, consecutive 1 (fun _ => []) 51 = a ++ orig :: b ∧
      orig.SequenceNumber = ({ SequenceNumber := 1, Payload := [] } : Packet).SequenceNumber ∧
      orig.Payload = ({ SequenceNumber := 1, Payload := [] } : Packet).Payload ∧
      (packetLoop 7 (fun _ => true) 0 initialState a).ended = LoopEnd.EndOfStream ∧
      (packetLoop 7 (fun _ => true) 0 initialState a).state.pktNacked = none ∧
      orig.SequenceNumber ∉ (packetLoop 7 (fun _ => true) 0 initialState a).state.wasNacked ∧
      (packetLoop 7 (fun _ => true) 0 initialState
        (consecutive 1 (fun _ => []) 51)).state.pktNacked = some orig :=
  C11_verified_follows_adoption 7 (fun _ => true) (consecutive 1 (fun _ => []) 51)
    { SequenceNumber := 1, Payload := [] } (by decide) (by decide)

/-- C11 fails as stated: on the stream of two packets with sequence number 1
and the same payload, the second iteration is a `VerifiedRetransmission` for
sequence number 1, and no iteration has sent feedback. -/
theorem C11_counterexample :
    (∀ p ∈ [({ SequenceNumber := 1, Payload := [5] } : Packet),
        { SequenceNumber := 1, Payload := [5] }], p.wf) ∧
    (packetLoop 7 (fun _ => true) 0 initialState
      [{ SequenceNumber := 1, Payload := [5] },
        { SequenceNumber := 1, Payload := [5] }]).outcomes =
      [Outcome.Continue, Outcome.VerifiedRetransmission] ∧
    (packetLoop 7 (fun _ => true) 0 initialState
      [{ SequenceNumber := 1, Payload := [5] },
        { SequenceNumber := 1, Payload := [5] }]).outcomes.any Outcome.isFeedback = false ∧
    (packetLoop 7 (fun _ => true) 0 initialState
      [{ SequenceNumber := 1, Payload := [5] },
        { SequenceNumber := 1, Payload := [5] }]).log = [LogLine.correctlyRTXed 1] := by
  decide

/-! ## Packets tried before -/

/-- C12: when the packet's sequence number is in `wasNacked` and is not the
sequence number of a pending probe, the iteration ends at the `continue` of
line 71: no `WriteRTCP`, nothing printed, no probe started, and `pktNacked`,
`largestGapRTXed` and `wasNacked` keep their values; only `totalSeen`
advances. -/
theorem C12_tried_packet_is_skipped (ssrc : Nat) (st : ProbeState) (pkt : Packet)
    (ht : pkt.SequenceNumber ∈ st.wasNacked)
    (hne : ∀ orig, st.pktNacked = some orig → orig.SequenceNumber ≠ pkt.SequenceNumber) :
    observe ssrc st pkt =
      { outcome := Outcome.Continue,
        state := { totalSeen := (st.totalSeen + 1) % 65536,
                   largestGapRTXed := st.largestGapRTXed,
                   pktNacked := st.pktNacked,
                   wasNacked := st.wasNacked },
        log := [] } ∧
    (observe ssrc st pkt).outcome.isFeedback = false := by
  have hm : matchesPending st pkt = false := by
    cases h : matchesPending st pkt with
    | false => rfl
    | true =>
      obtain ⟨orig, hp, hs⟩ := (matchesPending_eq_true st pkt).1 h
      exact absurd hs (hne orig hp)
  rw [observe_tried ssrc st pkt hm ht]
  exact ⟨rfl, rfl⟩

/-- C12 witness: the packet 1 delivered once more after it was verified. -/
theorem C12_tried_packet_is_skipped_witness :
    observe 7 { totalSeen := 52, largestGapRTXed := 50, pktNacked := none, wasNacked := [1] }
        { SequenceNumber := 1, Payload := [3] } =
      { outcome := Outcome.Continue,
        state := { totalSeen := (52 + 1) % 65536, largestGapRTXed := 50,
                   pktNacked := none, wasNacked := [1] },
        log := [] } ∧
    (observe 7 { totalSeen := 52, largestGapRTXed := 50, pktNacked := none, wasNacked := [1] }
        { SequenceNumber := 1, Payload := [3] }).outcome.isFeedback = false :=
  C12_tried_packet_is_skipped 7
    { totalSeen := 52, largestGapRTXed := 50, pktNacked := none, wasNacked := [1] }
    { SequenceNumber := 1, Payload := [3] } (by decide) (by intro orig h; cases h)

/-! ## Packets short of the boundary -/

/-- C13: when a packet neither matches the pending probe nor was tried before
and its distance to the probe in flight (the pending probe, or the packet
itself when it is adopted in this iteration, at distance 0) is strictly less
than `nackDistance`, the iteration ends at the `continue` of line 85: no
`WriteRTCP`, nothing printed, `largestGapRTXed` keeps its value, and
`pktNacked` keeps its value or, when no probe was pending, holds the packet
just adopted, whose sequence number is appended to `wasNacked`. -/
theorem C13_short_of_boundary_continues (ssrc : Nat) (st : ProbeState)
    (pkt nacked : Packet)
    (hm : matchesPending st pkt = false)
    (ht : pkt.SequenceNumber ∉ st.wasNacked)
    (hp : (startProbe st pkt).pktNacked = some nacked)
    (hd : currentDistance pkt nacked < nackDistance st) :
    (observe ssrc st pkt).outcome = Outcome.Continue ∧
    (observe ssrc st pkt).outcome.isFeedback = false ∧
    (observe ssrc st pkt).log = [] ∧
    (observe ssrc st pkt).state.largestGapRTXed = st.largestGapRTXed ∧
    (observe ssrc st pkt).state.pktNacked = some nacked ∧
    (st.pktNacked ≠ none →
      (observe ssrc st pkt).state.pktNacked = st.pktNacked ∧
      (observe ssrc st pkt).state.wasNacked = st.wasNacked) ∧
    (st.pktNacked = none →
      nacked = pkt ∧
      (observe ssrc st pkt).state.wasNacked = st.wasNacked ++ [pkt.SequenceNumber]) := by
  cases h : st.pktNacked with
  | none =>
    rw [startProbe_none st pkt h] at hp
    have e : pkt = nacked := by simpa using hp
    subst e
    rw [currentDistance_self] at hd
    rw [observe_adopt ssrc st pkt h ht, if_pos hd]
    exact ⟨rfl, rfl, rfl, rfl, rfl, fun hc => absurd rfl hc, fun _ => ⟨rfl, rfl⟩⟩
  | some n =>
    rw [startProbe_some st pkt n h, h] at hp
    have e : n = nacked := by simpa using hp
    subst e
    have hne : n.SequenceNumber ≠ pkt.SequenceNumber := by
      intro hs
      have := (matchesPending_eq_true st pkt).2 ⟨n, h, hs⟩
      rw [hm] at this
      cases this
    rw [observe_pending ssrc st pkt n h hne ht, if_pos hd]
    refine ⟨rfl, rfl, rfl, rfl, h, fun _ => ⟨h, rfl⟩, fun hc => by cases hc⟩

/-- C13 witness: the packet 30 while the probe for sequence number 1 is
pending. -/
theorem C13_short_of_boundary_continues_witness :
    (observe 7 (firstProbeState 29 { SequenceNumber := 1, Payload := [] })
      { SequenceNumber := 30, Payload := [4] }).outcome = Outcome.Continue ∧
    (observe 7 (firstProbeState 29 { SequenceNumber := 1, Payload := [] })
      { SequenceNumber := 30, Payload := [4] }).outcome.isFeedback = false ∧
    (observe 7 (firstProbeState 29 { SequenceNumber := 1, Payload := [] })
      { SequenceNumber := 30, Payload := [4] }).log = [] ∧
    (observe 7 (firstProbeState 29 { SequenceNumber := 1, Payload := [] })
      { SequenceNumber := 30, Payload := [4] }).state.largestGapRTXed =
      (firstProbeState 29 { SequenceNumber := 1, Payload := [] }).largestGapRTXed ∧
    (observe 7 (firstProbeState 29 { SequenceNumber := 1, Payload := [] })
      { SequenceNumber := 30, Payload := [4] }).state.pktNacked =
      some { SequenceNumber := 1, Payload := [] } ∧
    ((firstProbeState 29 { SequenceNumber := 1, Payload := [] }).pktNacked ≠ none →
      (observe 7 (firstProbeState 29 { SequenceNumber := 1, Payload := [] })
        { SequenceNumber := 30, Payload := [4] }).state.pktNacked =
        (firstProbeState 29 { SequenceNumber := 1, Payload := [] }).pktNacked ∧
      (observe 7 (firstProbeState 29 { SequenceNumber := 1, Payload := [] })
        { SequenceNumber := 30, Payload := [4] }).state.wasNacked =
        (firstProbeState 29 { SequenceNumber := 1, Payload := [] }).wasNacked) ∧
    ((firstProbeState 29 { SequenceNumber := 1, Payload := [] }).pktNacked = none →
      ({ SequenceNumber := 1, Payload := [] } : Packet) =
        { SequenceNumber := 30, Payload := [4] } ∧
      (observe 7 (firstProbeState 29 { SequenceNumber := 1, Payload := [] })
        { SequenceNumber := 30, Payload := [4] }).state.wasNacked =
        (firstProbeState 29 { SequenceNumber := 1, Payload := [] }).wasNacked ++
          [({ SequenceNumber := 30, Payload := [4] } : Packet).SequenceNumber]) :=
  C13_short_of_boundary_continues 7 (firstProbeState 29 { SequenceNumber := 1, Payload := [] })
    { SequenceNumber := 30, Payload := [4] } { SequenceNumber := 1, Payload := [] }
    (by decide) (by decide) (by decide) (by decide)

/-! ## A stream that is never retransmitted -/

/-- C14: a stream of 65537 packets with the consecutive sequence numbers
`s, s+1, ...` (modulo 65536), pairwise distinct payloads, and every
`WriteRTCP` succeeding.  The first packet becomes the probe and is still
pending when its sequence number comes round again with the 65537th packet;
that packet is compared with the probe and the loop panics with the payload
mismatch. -/
theorem C14_wrapped_stream_ends_in_mismatch (ssrc : Nat) (w : Nat → Bool) (s : Nat)
    (payload : Nat → List Nat)
    (hs : s < 65536)
    (hw : ∀ i, w i = true)
    (hdistinct : ∀ i j, i < 65537 → j < 65537 → payload i = payload j → i = j)
    (hbytes : ∀ i, ∀ b ∈ payload i, b < 256) :
    (∀ p ∈ consecutive s payload 65537, p.wf) ∧
    (consecutive s payload 65537).length = 65537 ∧
    packetLoop ssrc w 0 initialState (consecutive s payload 65537) =
      { outcomes := List.replicate 50 Outcome.Continue ++
          List.replicate 65486 (Outcome.SendFeedback (nackFor ssrc s)) ++
          [Outcome.IntegrityFailure],
        state := firstProbeState 1 { SequenceNumber := s, Payload := payload 0 },
        log := [LogLine.sendingNack s 50],
        ended := LoopEnd.Panicked } := by
  refine ⟨?_, consecutive_length s payload 65537, ?_⟩
  · intro p hp
    unfold consecutive at hp
    obtain ⟨i, _, hi⟩ := List.mem_map.1 hp
    rw [← hi]
    exact ⟨Nat.mod_lt _ (by omega), hbytes i⟩
  · have h := packetLoop_consecutive_beyond ssrc w s payload hs hw 65485 (by omega)
    have e1 : (51 + 65485 : Nat) = 65536 := rfl
    have e2 : (65485 + 1 : Nat) = 65486 := rfl
    have e3 : (65536 % 65536 : Nat) = 0 := rfl
    rw [e1, e2, e3] at h
    have hsplit : consecutive s payload 65537 =
        consecutive s payload 65536 ++
          [{ SequenceNumber := (s + 65536) % 65536, Payload := payload 65536 }] :=
      consecutive_succ s payload 65536
    have hseq : ({ SequenceNumber := s, Payload := payload 0 } : Packet).SequenceNumber =
        ({ SequenceNumber := (s + 65536) % 65536,
           Payload := payload 65536 } : Packet).SequenceNumber := by
      show s = (s + 65536) % 65536
      omega
    have hpay : ({ SequenceNumber := s, Payload := payload 0 } : Packet).Payload ≠
        ({ SequenceNumber := (s + 65536) % 65536,
           Payload := payload 65536 } : Packet).Payload := by
      show payload 0 ≠ payload 65536
      intro e
      have := hdistinct 0 65536 (by omega) (by omega) e
      omega
    rw [hsplit, packetLoop_append ssrc w _ 0 _ _ (by rw [h]), h, consecutive_length]
    simp only [packetLoop_cons, packetLoop_nil]
    rw [observe_mismatch ssrc _ _ _ rfl hseq hpay]
    simp only [loopContinues, Bool.false_eq_true, if_false, LoopResult.panicked,
      List.append_nil]
    rfl

/-- C14 witness: the stream that starts at sequence number 1, the `i`-th
packet carrying the three bytes of `i`. -/
theorem C14_wrapped_stream_ends_in_mismatch_witness :
    (∀ p ∈ consecutive 1 (fun i => [i % 256, i / 256 % 256, i / 65536 % 256]) 65537, p.wf) ∧
    (consecutive 1 (fun i => [i % 256, i / 256 % 256, i / 65536 % 256]) 65537).length =
      65537 ∧
    packetLoop 7 (fun _ => true) 0 initialState
        (consecutive 1 (fun i => [i % 256, i / 256 % 256, i / 65536 % 256]) 65537) =
      { outcomes := List.replicate 50 Outcome.Continue ++
          List.replicate 65486 (Outcome.SendFeedback (nackFor 7 1)) ++
          [Outcome.IntegrityFailure],
        state := firstProbeState 1
          { SequenceNumber := 1,
            Payload := (fun i => [i % 256, i / 256 % 256, i / 65536 % 256]) 0 },
        log := [LogLine.sendingNack 1 50],
        ended := LoopEnd.Panicked } :=
  C14_wrapped_stream_ends_in_mismatch 7 (fun _ => true) 1
    (fun i => [i % 256, i / 256 % 256, i / 65536 % 256])
    (by decide) (fun _ => rfl)
    (by
      intro i j hi hj h
      simp only [List.cons.injEq, and_true] at h
      omega)
    (by
      intro i b hb
      simp only [List.mem_cons, List.mem_singleton, List.not_mem_nil, or_false] at hb
      omega)

/-! ## The probe is set where it is read -/

/-- C15: an iteration reaches lines 80-96 exactly when its packet neither
matches the pending probe nor was tried before, and `pktNacked` then holds a
probe: the one that was pending, or the packet itself, adopted at lines
75-78.  So lines 81 and 93 never read a `nil` probe (which would make the
distance step fail), and the only outcome of an iteration after which the
loop does not go on, `WriteRTCP` succeeding, is the payload mismatch of
line 60. -/
theorem C15_probe_set_where_read (ssrc : Nat) (st : ProbeState) (pkt : Packet) :
    (observe ssrc st pkt).outcome ≠ Outcome.NilDereference ∧
    (matchesPending st pkt = false → pkt.SequenceNumber ∉ st.wasNacked →
      observe ssrc st pkt = distanceStep ssrc (startProbe (countPacket st) pkt) pkt ∧
      ∃ nacked, (startProbe (countPacket st) pkt).pktNacked = some nacked ∧
        (st.pktNacked = some nacked ∨ (st.pktNacked = none ∧ nacked = pkt))) ∧
    (∀ st0 : ProbeState,
      (distanceStep ssrc st0 pkt).outcome = Outcome.NilDereference ↔ st0.pktNacked = none) ∧
    (loopContinues true (observe ssrc st pkt).outcome = false ↔
      (observe ssrc st pkt).outcome = Outcome.IntegrityFailure) ∧
    ((observe ssrc st pkt).outcome = Outcome.IntegrityFailure ↔
      ∃ orig, st.pktNacked = some orig ∧
        orig.SequenceNumber = pkt.SequenceNumber ∧ orig.Payload ≠ pkt.Payload) := by
  refine ⟨observe_ne_nilDereference ssrc st pkt, ?_, ?_, ?_,
    observe_integrityFailure_iff ssrc st pkt⟩
  · intro hm ht
    refine ⟨observe_fresh ssrc st pkt hm ht, st.pktNacked.getD pkt,
      startProbe_pktNacked (countPacket st) pkt, ?_⟩
    cases h : st.pktNacked with
    | none => exact Or.inr ⟨rfl, rfl⟩
    | some n => exact Or.inl rfl
  · intro st0
    cases h : st0.pktNacked with
    | none =>
      unfold distanceStep
      rw [h]
      simp
    | some n =>
      rw [distanceStep_outcome ssrc st0 pkt n h]
      split_ifs <;> simp
  · constructor
    · intro h
      cases ho : (observe ssrc st pkt).outcome with
      | Continue => rw [ho] at h; cases h
      | VerifiedRetransmission => rw [ho] at h; cases h
      | IntegrityFailure => rfl
      | SendFeedback n => rw [ho] at h; cases h
      | NilDereference => exact absurd ho (observe_ne_nilDereference ssrc st pkt)
    · intro h
      rw [h]
      rfl

end WhipNack
